import Mathlib

/-!
Verification development for the herd-watch scoring, simulation and
risk-detection engine.

The TypeScript core is shallowly embedded over `ℚ`.  Functions that are pure
arithmetic in the source (`csi.ts`, `risk-config.ts`, the risk-detection
pipeline of the risk engine, the candidate/selection logic of `movement.ts`)
are translated directly.  The environment lookups (`distanceKm`,
`vegetationAt`, `waterAt`, `nearestVillageDistance`, `conflictHistoryAt`,
`getConflictRiskScoreAt`, `getFactorValuesAt`) and the sinusoidal
`seededRandom` hash use transcendental functions (`Math.sin`, `Math.cos`), so
they are abstracted as explicit function-valued parameters (`RiskEnv`,
`MoveEnv`); every theorem quantifies over them, and concrete instances are
used for witnesses.
-/

namespace HerdWatch

/-- Clamp to the unit interval: Math.max(0, Math.min(1, q)), as used throughout the source. -/
def clamp01 (q : ℚ) : ℚ := max 0 (min 1 q)

-- ════════════════════════════════════════════════════════════════════
-- §1  src/lib/csi.ts — Composite Suitability Index
-- ════════════════════════════════════════════════════════════════════

/-- The eight weighted CSI factors (keys of `FACTOR_RANKS` / `FactorIndices`). -/
inductive Factor
  | ndvi | geospatial | rainfall | waterBodies
  | floodExtent | soilMoisture | evapotranspiration | landSurfaceTemp
  deriving DecidableEq, Repr

instance : Fintype Factor :=
  ⟨⟨{.ndvi, .geospatial, .rainfall, .waterBodies,
     .floodExtent, .soilMoisture, .evapotranspiration, .landSurfaceTemp}, by decide⟩,
   by intro x; cases x <;> decide⟩

/-- Factor ranks from csi.ts (the 1–10 scale of `FACTOR_RANKS`). -/
def FACTOR_RANKS : Factor → ℕ
  | .ndvi => 10
  | .geospatial => 9
  | .rainfall => 9
  | .waterBodies => 9
  | .floodExtent => 8
  | .soilMoisture => 8
  | .evapotranspiration => 7
  | .landSurfaceTemp => 6

/-- Factor weights: `Rank/10` per factor (`FACTOR_WEIGHTS`). -/
def FACTOR_WEIGHTS (f : Factor) : ℚ := (FACTOR_RANKS f : ℚ) / 10

/-- Key insertion order of the `FACTOR_WEIGHTS` object literal, which is the
`Object.entries` iteration order used by `computeCSI`. -/
def FACTOR_ORDER : List Factor :=
  [.ndvi, .geospatial, .rainfall, .waterBodies,
   .floodExtent, .soilMoisture, .evapotranspiration, .landSurfaceTemp]

/-- Raw measurements: the ten scalar fields of `FactorValues`. -/
structure FactorValues where
  rainfallMmDay : ℚ
  ndvi : ℚ
  soilMoisturePct : ℚ
  waterExtentPct : ℚ
  evapotranspirationMmDay : ℚ
  landSurfaceTempC : ℚ
  floodExtentPct : ℚ
  distToWaterKm : ℚ
  elevationAboveLocalM : ℚ
  conflictIncidentsPerMonth : ℚ
  deriving DecidableEq, Repr

/-- Rainfall: Low <5 → 0.2, Moderate 5–20 → 0.8, High >20 → 0.3 -/
def indexRainfall (mmPerDay : ℚ) : ℚ :=
  if mmPerDay < 5 then 2/10 else if mmPerDay ≤ 20 then 8/10 else 3/10

/-- NDVI: Low <0.2 → 0.1, Moderate 0.2–0.5 → 0.6, High >0.5 → 1.0 -/
def indexNDVI (ndvi : ℚ) : ℚ :=
  if ndvi < 2/10 then 1/10 else if ndvi ≤ 5/10 then 6/10 else 1

/-- Soil moisture %: Low <20 → 0.2, Moderate 20–40 → 0.7, High >40 → 0.4 -/
def indexSoilMoisture (pct : ℚ) : ℚ :=
  if pct < 20 then 2/10 else if pct ≤ 40 then 7/10 else 4/10

/-- Water extent %: Low <10 → 0.1, Moderate 10–30 → 0.8, High >30 → 0.9 -/
def indexWaterExtent (pct : ℚ) : ℚ :=
  if pct < 10 then 1/10 else if pct ≤ 30 then 8/10 else 9/10

/-- Evapotranspiration mm/day: Low <2 → 0.9, Moderate 2–5 → 0.6, High >5 → 0.3 -/
def indexEvapotranspiration (mmPerDay : ℚ) : ℚ :=
  if mmPerDay < 2 then 9/10 else if mmPerDay ≤ 5 then 6/10 else 3/10

/-- Land surface temp °C: Low <25 → 1.0, Moderate 25–30 → 0.7, High >30 → 0.4 -/
def indexLandSurfaceTemp (c : ℚ) : ℚ :=
  if c < 25 then 1 else if c ≤ 30 then 7/10 else 4/10

/-- Flood extent %: Low <5 → 1.0, Moderate 5–10 → 0.5, High >10 → 0.1 -/
def indexFloodExtent (pct : ℚ) : ℚ :=
  if pct < 5 then 1 else if pct ≤ 10 then 5/10 else 1/10

/-- Geospatial blend: water-proximity / elevation / conflict sub-indices with
sub-weights 0.4 / 0.3 / 0.3. -/
def indexGeospatial (distToWaterKm elevationAboveLocalM conflictIncidentsPerMonth : ℚ) : ℚ :=
  let waterIdx : ℚ := if distToWaterKm < 5 then 1 else if distToWaterKm ≤ 20 then 6/10 else 2/10
  let elevIdx : ℚ := if elevationAboveLocalM ≥ 50 then 8/10 else 4/10
  let conflictIdx : ℚ :=
    if conflictIncidentsPerMonth = 0 then 1
    else if conflictIncidentsPerMonth ≤ 5 then 5/10 else 1/10
  waterIdx * (4/10) + elevIdx * (3/10) + conflictIdx * (3/10)

/-- Normalized scores: the eight fields of `FactorIndices`. -/
structure FactorIndices where
  ndvi : ℚ
  geospatial : ℚ
  rainfall : ℚ
  waterBodies : ℚ
  floodExtent : ℚ
  soilMoisture : ℚ
  evapotranspiration : ℚ
  landSurfaceTemp : ℚ
  deriving DecidableEq, Repr

def FactorIndices.get (idx : FactorIndices) : Factor → ℚ
  | .ndvi => idx.ndvi
  | .geospatial => idx.geospatial
  | .rainfall => idx.rainfall
  | .waterBodies => idx.waterBodies
  | .floodExtent => idx.floodExtent
  | .soilMoisture => idx.soilMoisture
  | .evapotranspiration => idx.evapotranspiration
  | .landSurfaceTemp => idx.landSurfaceTemp

/-- Replace a single factor index, holding the other seven fixed. -/
def FactorIndices.set (idx : FactorIndices) : Factor → ℚ → FactorIndices
  | .ndvi, x => { idx with ndvi := x }
  | .geospatial, x => { idx with geospatial := x }
  | .rainfall, x => { idx with rainfall := x }
  | .waterBodies, x => { idx with waterBodies := x }
  | .floodExtent, x => { idx with floodExtent := x }
  | .soilMoisture, x => { idx with soilMoisture := x }
  | .evapotranspiration, x => { idx with evapotranspiration := x }
  | .landSurfaceTemp, x => { idx with landSurfaceTemp := x }

def computeFactorIndices (values : FactorValues) : FactorIndices where
  ndvi := indexNDVI values.ndvi
  geospatial := indexGeospatial values.distToWaterKm values.elevationAboveLocalM
    values.conflictIncidentsPerMonth
  rainfall := indexRainfall values.rainfallMmDay
  waterBodies := indexWaterExtent values.waterExtentPct
  floodExtent := indexFloodExtent values.floodExtentPct
  soilMoisture := indexSoilMoisture values.soilMoisturePct
  evapotranspiration := indexEvapotranspiration values.evapotranspirationMmDay
  landSurfaceTemp := indexLandSurfaceTemp values.landSurfaceTempC

/-- Composite index `computeCSI`: fold over `Object.entries(FACTOR_WEIGHTS)` accumulating the
weighted sum and the total weight, then `max(0, min(1, csi/totalWeight))`
(0 if the total weight is not positive). -/
def computeCSI (indices : FactorIndices) : ℚ :=
  let csi := FACTOR_ORDER.foldl (fun s f => s + indices.get f * FACTOR_WEIGHTS f) 0
  let totalWeight := FACTOR_ORDER.foldl (fun s f => s + FACTOR_WEIGHTS f) 0
  if 0 < totalWeight then clamp01 (csi / totalWeight) else 0

inductive MovementBand
  | high | moderate | low
  deriving DecidableEq, Repr

def MovementBand.name : MovementBand → String
  | .high => "high"
  | .moderate => "moderate"
  | .low => "low"

structure MovementLikelihood where
  band : MovementBand
  likelihoodPct : ℚ
  moveKmMin : ℚ
  moveKmMax : ℚ
  description : String
  deriving DecidableEq, Repr

/-- Band classification `getMovementLikelihood` (boundaries 0.4 and 0.7). -/
def getMovementLikelihood (csi : ℚ) : MovementLikelihood :=
  if csi > 7/10 then
    { band := .high, likelihoodPct := 3/10, moveKmMin := 0, moveKmMax := 5,
      description := "Stay put; high suitability (CSI >0.7)." }
  else if csi ≥ 4/10 then
    { band := .moderate, likelihoodPct := 6/10, moveKmMin := 5, moveKmMax := 20,
      description := "Short moves <20 km; moderate suitability (CSI 0.4-0.7)." }
  else
    { band := .low, likelihoodPct := 9/10, moveKmMin := 50, moveKmMax := 400,
      description := "Long moves 50-400 km to better CSI areas; low suitability (CSI <0.4)." }

/-- Path cost `getPathCost`: `1 / max(0.01, min(1, csi)) + conflictPenalty + floodPenalty`.
The source takes the two penalties in an options object defaulting to 0;
call sites here always pass them explicitly. -/
def getPathCost (csi conflictPenalty floodPenalty : ℚ) : ℚ :=
  let safeCsi := max (1/100) (min 1 csi)
  1 / safeCsi + conflictPenalty + floodPenalty

/-- Rounding as in Math.round (half toward positive infinity). -/
def ratRound (q : ℚ) : ℤ := ⌊q + 1/2⌋

/-- Decimal rendering used to model `Number.prototype.toFixed(2)` for the
nonnegative CSI values that reach it. -/
def toFixed2 (q : ℚ) : String :=
  let n := (ratRound (q * 100)).toNat
  toString (n / 100) ++ "." ++ (if n % 100 < 10 then "0" else "") ++ toString (n % 100)

/-- Message builder `getLikelihoodMessage` from csi.ts. -/
def getLikelihoodMessage (csi : ℚ) (dominant direction : String) (distanceKm : ℤ) : String :=
  let band := getMovementLikelihood csi
  let pct := ratRound (band.likelihoodPct * 100)
  toString pct ++ "% likelihood of moving " ++ toString distanceKm ++ " km " ++
    direction ++ " due to " ++ dominant ++ ". CSI=" ++ toFixed2 csi ++ " (" ++
    band.band.name ++ " suitability)."

-- ════════════════════════════════════════════════════════════════════
-- §2  src/lib/risk-config.ts — Threshold Profile Resolver
-- ════════════════════════════════════════════════════════════════════

inductive RiskCategory
  | community_protection | resource_tension
  deriving DecidableEq, Repr

inductive SeasonBand
  | dry | wet | transition
  deriving DecidableEq, Repr

inductive CountyBand
  | bor | duk | ayod | pibor | akobo | other
  deriving DecidableEq, Repr

structure RiskThresholdProfile where
  county : CountyBand
  season : SeasonBand
  convergenceKm : ℚ
  villageProximityKm : ℚ
  farmProximityKm : ℚ
  resourceScarcityThreshold : ℚ
  historyThreshold : ℚ
  deriving DecidableEq, Repr

structure BBox where
  south : ℚ
  north : ℚ
  west : ℚ
  east : ℚ
  deriving DecidableEq, Repr

structure CountyMultipliers where
  convergence : ℚ
  village : ℚ
  farm : ℚ
  scarcity : ℚ
  history : ℚ
  deriving DecidableEq, Repr

structure CountyRule where
  county : CountyBand
  bbox : BBox
  multipliers : CountyMultipliers
  deriving DecidableEq, Repr

/-- Base threshold constants (`BASE`). -/
def BASE : RiskThresholdProfile :=
  { county := .other, season := .transition, convergenceKm := 35,
    villageProximityKm := 30, farmProximityKm := 20,
    resourceScarcityThreshold := 35/100, historyThreshold := 3/10 }

/-- The static `COUNTY_RULES` table, in declaration order. -/
def COUNTY_RULES : List CountyRule :=
  [ { county := .bor,
      bbox := { south := 59/10, north := 66/10, west := 312/10, east := 319/10 },
      multipliers := { convergence := 9/10, village := 11/10, farm := 115/100,
                       scarcity := 1, history := 95/100 } },
    { county := .duk,
      bbox := { south := 66/10, north := 74/10, west := 31, east := 317/10 },
      multipliers := { convergence := 95/100, village := 1, farm := 1,
                       scarcity := 95/100, history := 9/10 } },
    { county := .ayod,
      bbox := { south := 73/10, north := 82/10, west := 311/10, east := 322/10 },
      multipliers := { convergence := 1, village := 95/100, farm := 9/10,
                       scarcity := 9/10, history := 9/10 } },
    { county := .pibor,
      bbox := { south := 6, north := 75/10, west := 323/10, east := 335/10 },
      multipliers := { convergence := 11/10, village := 12/10, farm := 1,
                       scarcity := 1, history := 8/10 } },
    { county := .akobo,
      bbox := { south := 74/10, north := 82/10, west := 324/10, east := 335/10 },
      multipliers := { convergence := 105/100, village := 11/10, farm := 9/10,
                       scarcity := 95/100, history := 85/100 } } ]

/-- Membership in a county rule bounding box (all comparisons inclusive, as in
`countyFromPoint`). -/
def inCountyBBox (r : CountyRule) (lat lng : ℚ) : Prop :=
  r.bbox.south ≤ lat ∧ lat ≤ r.bbox.north ∧ r.bbox.west ≤ lng ∧ lng ≤ r.bbox.east

instance (r : CountyRule) (lat lng : ℚ) : Decidable (inCountyBBox r lat lng) := by
  unfold inCountyBBox; infer_instance

/-- Season classifier `seasonFromDay`: `doy = ((day % 365) + 365) % 365`, wet 100–285,
transition 70–99 or 286–320, else dry. -/
def seasonFromDay (day : ℤ) : SeasonBand :=
  let doy := ((day % 365) + 365) % 365
  if 100 ≤ doy ∧ doy ≤ 285 then .wet
  else if (70 ≤ doy ∧ doy < 100) ∨ (285 < doy ∧ doy ≤ 320) then .transition
  else .dry

/-- Region lookup `countyFromPoint`: first matching rule in `COUNTY_RULES` order, else `other`. -/
def countyFromPoint (lat lng : ℚ) : CountyBand :=
  match COUNTY_RULES.find? (fun r => decide (inCountyBBox r lat lng)) with
  | some r => r.county
  | none => .other

def multipliersForCounty (county : CountyBand) : CountyMultipliers :=
  match COUNTY_RULES.find? (fun r => r.county = county) with
  | some r => r.multipliers
  | none => { convergence := 1, village := 1, farm := 1, scarcity := 1, history := 1 }

def multipliersForSeason (season : SeasonBand) : CountyMultipliers :=
  match season with
  | .wet => { convergence := 95/100, village := 1, farm := 1, scarcity := 85/100, history := 1 }
  | .transition => { convergence := 1, village := 1, farm := 1, scarcity := 1, history := 1 }
  | .dry => { convergence := 105/100, village := 11/10, farm := 11/10,
              scarcity := 115/100, history := 1 }

/-- Scenario record `DayScenario` (environment.ts): day index plus the four scenario modifiers. -/
structure DayScenario where
  day : ℤ
  rainfallAnomaly : ℚ
  droughtSeverity : ℚ
  floodExtent : ℚ
  seasonalShift : ℤ
  deriving DecidableEq, Repr

/-- The four scenario modifiers without a day (`Omit<DayScenario, "day">`). -/
structure ScenarioParams where
  rainfallAnomaly : ℚ
  droughtSeverity : ℚ
  floodExtent : ℚ
  seasonalShift : ℤ
  deriving DecidableEq, Repr

def ScenarioParams.withDay (s : ScenarioParams) (day : ℤ) : DayScenario :=
  { day := day, rainfallAnomaly := s.rainfallAnomaly, droughtSeverity := s.droughtSeverity,
    floodExtent := s.floodExtent, seasonalShift := s.seasonalShift }

/-- Profile resolver `getRiskThresholdProfile`. -/
def getRiskThresholdProfile (lat lng : ℚ) (scenario : DayScenario) : RiskThresholdProfile :=
  let season := seasonFromDay scenario.day
  let county := countyFromPoint lat lng
  let countyMul := multipliersForCounty county
  let seasonMul := multipliersForSeason season
  { county := county, season := season,
    convergenceKm := BASE.convergenceKm * countyMul.convergence * seasonMul.convergence,
    villageProximityKm := BASE.villageProximityKm * countyMul.village * seasonMul.village,
    farmProximityKm := BASE.farmProximityKm * countyMul.farm * seasonMul.farm,
    resourceScarcityThreshold :=
      min (7/10) (BASE.resourceScarcityThreshold * countyMul.scarcity * seasonMul.scarcity),
    historyThreshold := min (8/10) (BASE.historyThreshold * countyMul.history * seasonMul.history) }

-- ════════════════════════════════════════════════════════════════════
-- §3  src/lib/pois.ts — farms (the only POI data the claims need)
-- ════════════════════════════════════════════════════════════════════

structure Farm where
  id : String
  name : String
  /-- Polygon as (lat, lng) pairs (closed ring). -/
  bounds : List (ℚ × ℚ)
  deriving DecidableEq, Repr

/-- Farm plot helper `farmPolygon(centerLat, centerLng, sizeDeg = 0.08)`: closed rectangle ring
(first vertex repeated). -/
def farmPolygon (centerLat centerLng sizeDeg : ℚ) : List (ℚ × ℚ) :=
  let h := sizeDeg / 2
  [ (centerLat - h, centerLng - h),
    (centerLat - h, centerLng + h),
    (centerLat + h, centerLng + h),
    (centerLat + h, centerLng - h),
    (centerLat - h, centerLng - h) ]

def FARMS : List Farm :=
  [ { id := "f1", name := "Bor North", bounds := farmPolygon (635/100) (3145/100) (8/100) },
    { id := "f2", name := "Kongor East", bounds := farmPolygon (685/100) (3160/100) (8/100) },
    { id := "f3", name := "Duk lowland", bounds := farmPolygon (710/100) (3125/100) (8/100) },
    { id := "f4", name := "Twic East riverside", bounds := farmPolygon (655/100) (3185/100) (8/100) },
    { id := "f5", name := "Kolnyang plot", bounds := farmPolygon (610/100) (3148/100) (8/100) },
    { id := "f6", name := "Baidit plot", bounds := farmPolygon (625/100) (3172/100) (8/100) },
    { id := "f7", name := "Wernyol plot", bounds := farmPolygon (672/100) (3118/100) (8/100) },
    { id := "f8", name := "Padak plot", bounds := farmPolygon (648/100) (3158/100) (8/100) } ]

-- ════════════════════════════════════════════════════════════════════
-- §4  Risk Detection Engine (detectRisks)
-- ════════════════════════════════════════════════════════════════════

/-- Position entry of a trail / forecast. -/
structure PosDay where
  lat : ℚ
  lng : ℚ
  day : ℤ
  deriving DecidableEq, Repr

/-- Herd record `SimHerd` from movement.ts.  The optional `csi` / `movementBand` fields are
always populated by `simulateHerds`, so they are total here. -/
structure SimHerd where
  id : String
  lat : ℚ
  lng : ℚ
  size : ℚ
  confidence : ℚ
  speedKmDay : ℚ
  trail : List PosDay
  predicted : List PosDay
  decisionReason : String
  csi : ℚ
  movementBand : MovementBand
  deriving DecidableEq, Repr

/-- The environment collaborators consumed by `detectRisks`.  These source
functions (`distanceKm`, `vegetationAt`, `waterAt(...).score`,
`nearestVillageDistance(...).distKm`, `conflictHistoryAt` in environment.ts,
and `getConflictRiskScoreAt` from data/realFactors) are sinusoidal /
data-backed lookups, abstracted here as explicit parameters. -/
structure RiskEnv where
  dist : ℚ → ℚ → ℚ → ℚ → ℚ
  veg : ℚ → ℚ → DayScenario → ℚ
  waterScore : ℚ → ℚ → DayScenario → ℚ
  villageDistKm : ℚ → ℚ → ℚ
  acled : ℚ → ℚ → Option ℚ
  conflictHistory : ℚ → ℚ → ℚ

/-- Farm distance `distToFarm`: minimum distance to the centroids of the `FARMS` polygons
(the JS fold starts from `Infinity` and keeps strict minima; `FARMS` is
nonempty, so this equals the minimum over the list). -/
def distToFarm (dist : ℚ → ℚ → ℚ → ℚ → ℚ) (lat lng : ℚ) : ℚ :=
  let ds := FARMS.map (fun f =>
    let centLat := (f.bounds.foldl (fun s b => s + b.1) 0) / (f.bounds.length : ℚ)
    let centLng := (f.bounds.foldl (fun s b => s + b.2) 0) / (f.bounds.length : ℚ)
    dist lat lng centLat centLng)
  match ds with
  | [] => 0
  | d :: rest => rest.foldl min d

inductive RiskLevel
  | low | medium | high
  deriving DecidableEq, Repr

/-- Severity order: riskOrder maps high to 0, medium to 1, low to 2. -/
def riskOrder : RiskLevel → ℕ
  | .high => 0
  | .medium => 1
  | .low => 2

structure AlertTriggers where
  herdConvergence : Bool
  resourceScarcity : Bool
  nearVillage : Bool
  nearFarmland : Bool
  historicalConflict : Bool
  acledBackedConflict : Bool
  deriving DecidableEq, Repr

/-- Alert record from the risk engine.  The purely presentational string fields
(`id`, `reason`, `location`) and the attached `suggestedActions` records are
not modelled: no claim constrains them and they do not feed back into the
deduplication / ranking pipeline (which keys on `herdIds`, `riskLevel`,
`daysAway` only). -/
structure Alert where
  herdIds : String × String
  lat : ℚ
  lng : ℚ
  daysAway : ℕ
  riskLevel : RiskLevel
  riskCategory : RiskCategory
  triggers : AlertTriggers
  county : CountyBand
  season : SeasonBand
  deriving DecidableEq, Repr

/-- A herd's predicted position for a forecast day (falls back to the current
position when the prediction is missing). -/
structure FuturePos where
  id : String
  lat : ℚ
  lng : ℚ
  deriving DecidableEq, Repr

def futurePositions (herds : List SimHerd) (dayOffset : ℕ) : List FuturePos :=
  herds.map (fun h =>
    match h.predicted[dayOffset - 1]? with
    | some p => { id := h.id, lat := p.lat, lng := p.lng }
    | none => { id := h.id, lat := h.lat, lng := h.lng })

/-- All ordered pairs `(l[i], l[j])` with `i < j`, in the nested-loop
enumeration order of the source. -/
def offsetPairs {α : Type} : List α → List (α × α)
  | [] => []
  | x :: xs => xs.map (fun y => (x, y)) ++ offsetPairs xs

/-- Severity rule ("stricter thresholds" in the source): high if
`dist < conv*0.3` with ≥3 triggers, else medium if `dist < conv*0.5` with
≥2 triggers, else low. -/
def classifyRisk (dist conv : ℚ) (triggerCount : ℕ) : RiskLevel :=
  if dist < conv * (3/10) ∧ triggerCount ≥ 3 then .high
  else if dist < conv * (5/10) ∧ triggerCount ≥ 2 then .medium
  else .low

/-- Category: community protection when any of the settlement / farmland /
history triggers fired, else resource tension. -/
def categorize (nearVillage nearFarm hasHistory : Bool) : RiskCategory :=
  if nearVillage || nearFarm || hasHistory then .community_protection
  else .resource_tension

/-- The per-pair body of the `detectRisks` double loop: convergence gate,
trigger evaluation, ≥2-of-4 gate, severity and category classification.
Returns the emitted `Alert`, or `none` when a `continue` fires. -/
def riskPairAlert (E : RiskEnv) (dayOffset : ℕ) (scn : DayScenario)
    (a b : FuturePos) : Option Alert :=
  let dist := E.dist a.lat a.lng b.lat b.lng
  let midLat := (a.lat + b.lat) / 2
  let midLng := (a.lng + b.lng) / 2
  let profile := getRiskThresholdProfile midLat midLng scn
  if dist ≥ profile.convergenceKm then none
  else
    let veg := E.veg midLat midLng scn
    let water := E.waterScore midLat midLng scn
    let villageDist := E.villageDistKm midLat midLng
    let farmDist := distToFarm E.dist midLat midLng
    let acledConflict := E.acled midLat midLng
    let conflictHist := acledConflict.getD (E.conflictHistory midLat midLng)
    let resourceScarcity : Bool :=
      decide (veg < profile.resourceScarcityThreshold ∨
        water < profile.resourceScarcityThreshold)
    let nearVillage : Bool := decide (villageDist < profile.villageProximityKm)
    let nearFarm : Bool := decide (farmDist < profile.farmProximityKm)
    let hasHistory : Bool := decide (conflictHist > profile.historyThreshold)
    let triggerCount :=
      ([resourceScarcity, nearVillage, nearFarm, hasHistory].filter (fun t => t)).length
    if triggerCount < 2 then none
    else
      let riskLevel : RiskLevel := classifyRisk dist profile.convergenceKm triggerCount
      let riskCategory : RiskCategory := categorize nearVillage nearFarm hasHistory
      some { herdIds := (a.id, b.id), lat := midLat, lng := midLng,
             daysAway := dayOffset, riskLevel := riskLevel, riskCategory := riskCategory,
             triggers := { herdConvergence := true, resourceScarcity := resourceScarcity,
                           nearVillage := nearVillage, nearFarmland := nearFarm,
                           historicalConflict := hasHistory,
                           acledBackedConflict := acledConflict.isSome },
             county := profile.county, season := profile.season }

/-- The alert accumulation of `detectRisks` before post-processing: day offsets
1..forecastDays, all `i < j` pairs, in source order. -/
def rawAlerts (E : RiskEnv) (herds : List SimHerd) (baseDay : ℤ)
    (scenario : ScenarioParams) : List Alert :=
  let forecastDays := match herds with
    | [] => 4
    | h :: _ => h.predicted.length
  ((List.range forecastDays).map (fun k =>
    let dayOffset : ℕ := k + 1
    let dayScenario := scenario.withDay (baseDay + (dayOffset : ℤ))
    (offsetPairs (futurePositions herds dayOffset)).filterMap
      (fun p => riskPairAlert E dayOffset dayScenario p.1 p.2))).flatten

/-- Dedup key: `a.herdIds.slice().sort().join("-")`, unordered in the pair. -/
def pairKey (a : Alert) : String :=
  if a.herdIds.1 ≤ a.herdIds.2 then a.herdIds.1 ++ "-" ++ a.herdIds.2
  else a.herdIds.2 ++ "-" ++ a.herdIds.1

/-- Replacement rule of the dedup map: prefer higher risk, then sooner. -/
def preferred (a existing : Alert) : Bool :=
  decide (riskOrder a.riskLevel < riskOrder existing.riskLevel ∨
    (a.riskLevel = existing.riskLevel ∧ a.daysAway < existing.daysAway))

/-- One step of the `byKey` `Map` fold: a JS `Map` preserves key insertion
order, and `set` on an existing key replaces in place, so the map is
modelled as an association list where new keys are appended and updates
rewrite in place. -/
def dedupStep (m : List (String × Alert)) (a : Alert) : List (String × Alert) :=
  match m.find? (fun p => p.1 = pairKey a) with
  | none => m ++ [(pairKey a, a)]
  | some pa =>
      if preferred a pa.2 then
        m.map (fun p => if p.1 = pairKey a then (pairKey a, a) else p)
      else m

/-- The deduplication fold of `detectRisks` ("keep soonest / highest-risk"). -/
def dedupByPair (alerts : List Alert) : List (String × Alert) :=
  alerts.foldl dedupStep []

/-- The final comparator `riskOrder[a]-riskOrder[b] || a.daysAway-b.daysAway`
as a boolean `≤`. -/
def alertLe (a b : Alert) : Bool :=
  decide (riskOrder a.riskLevel < riskOrder b.riskLevel ∨
    (riskOrder a.riskLevel = riskOrder b.riskLevel ∧ a.daysAway ≤ b.daysAway))

/-- Main entry `detectRisks`, restricted to the alert pipeline (risk zones, alternative
routes and suggested-action lists are derived outputs no claim touches):
generate, dedupe by unordered pair, sort by (severity, days-away)
(`Array.prototype.sort` is stable, as is `List.mergeSort`), cap at 6. -/
def detectRisks (E : RiskEnv) (herds : List SimHerd) (baseDay : ℤ)
    (scenario : ScenarioParams) : List Alert :=
  ((((dedupByPair (rawAlerts E herds baseDay scenario)).map (fun p => p.2)).mergeSort
    alertLe).take 6)

-- ════════════════════════════════════════════════════════════════════
-- §5  src/lib/movement.ts — Movement Simulator
-- ════════════════════════════════════════════════════════════════════

/-- Geographic bounds `SOUTH_SUDAN_BOUNDS.bbox` from constants.ts. -/
def SOUTH_SUDAN_BBOX : BBox :=
  { south := 55/10, north := 82/10, west := 30, east := 335/10 }

/-- The collaborators of the simulator: the factor provider
(`getFactorValuesAt`, real- or mock-backed) and the sinusoidal hash
`seededRandom`, abstracted as explicit parameters. -/
structure MoveEnv where
  getFactorValuesAt : ℚ → ℚ → DayScenario → FactorValues
  rng : ℚ → ℚ

/-- Validity of the hash: `seededRandom` returns `x - Math.floor(x)`, a value in `[0, 1)`.
Theorems that need the jitter bound take this as a hypothesis. -/
def RngValid (E : MoveEnv) : Prop := ∀ s : ℚ, 0 ≤ E.rng s ∧ E.rng s < 1

structure MovementCandidate where
  lat : ℚ
  lng : ℚ
  csi : ℚ
  cost : ℚ
  indices : FactorIndices
  deriving DecidableEq, Repr

/-- Candidate scoring `evaluateCandidate`: CSI plus saturating conflict/flood penalties. -/
def evaluateCandidate (E : MoveEnv) (candidateLat candidateLng : ℚ)
    (scenario : DayScenario) : MovementCandidate :=
  let values := E.getFactorValuesAt candidateLat candidateLng scenario
  let indices := computeFactorIndices values
  let csi := computeCSI indices
  let conflictPenalty :=
    if values.conflictIncidentsPerMonth > 5 then 3/2
    else values.conflictIncidentsPerMonth * (2/10)
  let floodPenalty :=
    if values.floodExtentPct > 10 then 3/2 else values.floodExtentPct / 50
  { lat := candidateLat, lng := candidateLng, csi := csi,
    cost := getPathCost csi conflictPenalty floodPenalty, indices := indices }

/-- Dominant factor: the factor with the lowest index, iterating the object
keys in insertion order (`FACTOR_ORDER`), ties keeping the earlier key. -/
def dominantFactor (indices : FactorIndices) : Factor :=
  (FACTOR_ORDER.foldl
    (fun (acc : Factor × ℚ) k =>
      if indices.get k < acc.2 then (k, indices.get k) else acc)
    (.ndvi, 1)).1

def DIR_NAMES : List String :=
  ["north", "northeast", "east", "southeast", "south", "southwest", "west", "northwest"]

def FACTOR_LABELS : Factor → String
  | .ndvi => "vegetation/forage (NDVI)"
  | .geospatial => "geospatial (water/elevation/conflict)"
  | .rainfall => "rainfall"
  | .waterBodies => "water bodies extent"
  | .floodExtent => "flood extent"
  | .soilMoisture => "soil moisture"
  | .evapotranspiration => "evapotranspiration"
  | .landSurfaceTemp => "land surface temperature"

/-- The in-bounds test of the direction search: the configured bounding box
shrunk by the inward margin 0.2°. -/
def inShrunkBounds (cLat cLng : ℚ) : Prop :=
  SOUTH_SUDAN_BBOX.south + 2/10 ≤ cLat ∧ cLat ≤ SOUTH_SUDAN_BBOX.north - 2/10 ∧
  SOUTH_SUDAN_BBOX.west + 2/10 ≤ cLng ∧ cLng ≤ SOUTH_SUDAN_BBOX.east - 2/10

instance (cLat cLng : ℚ) : Decidable (inShrunkBounds cLat cLng) := by
  unfold inShrunkBounds; infer_instance

structure MoveResult where
  lat : ℚ
  lng : ℚ
  reason : String
  csi : ℚ
  band : MovementBand
  candidate : MovementCandidate
  deriving DecidableEq, Repr

/-- The per-day travel budget by movement band. -/
def kmForBand (E : MoveEnv) (lat lng : ℚ) (day : ℤ) (speedKmDay : ℚ) :
    MovementBand → ℚ
  | .high => 2 + E.rng (lat * 100 + lng * 50 + (day : ℚ)) * 3
  | .moderate => min speedKmDay (15 + E.rng (lat * 77 + lng * 33) * 5)
  | .low => min (speedKmDay * (12/10)) 80

/-- The eight compass offsets at a given step size, in enumeration order. -/
def directionOffsets (stepDeg : ℚ) : List (ℚ × ℚ) :=
  [ (stepDeg, 0), (stepDeg, stepDeg), (0, stepDeg), (-stepDeg, stepDeg),
    (-stepDeg, 0), (-stepDeg, -stepDeg), (0, -stepDeg), (stepDeg, -stepDeg) ]

/-- The jittered candidate position for direction index `i`. -/
def jitteredCandidate (E : MoveEnv) (lat lng stepDeg : ℚ) (day : ℤ) (i : ℕ)
    (d : ℚ × ℚ) : ℚ × ℚ :=
  let jitter := (E.rng ((day : ℚ) * 13 + (i : ℚ) * 7 + lat * 100 + lng * 100) - 1/2)
    * stepDeg * (2/10)
  (lat + d.1 + jitter, lng + d.2 + jitter)

/-- The direction-search fold: keep the strictly cheaper candidate, skipping
out-of-bounds candidates before cost evaluation; ties keep the earlier index. -/
def bestCandidate (E : MoveEnv) (lat lng stepDeg : ℚ) (scenario : DayScenario) :
    Option (MovementCandidate × ℕ) :=
  ((directionOffsets stepDeg).enum).foldl
    (fun acc di =>
      let c := jitteredCandidate E lat lng stepDeg scenario.day di.1 di.2
      if inShrunkBounds c.1 c.2 then
        let candidate := evaluateCandidate E c.1 c.2 scenario
        match acc with
        | none => some (candidate, di.1)
        | some best =>
            if candidate.cost < best.1.cost then some (candidate, di.1) else some best
      else acc)
    none

/-- One-day move `moveHerdOneDay`.  The unused `prevDirection` parameter of the source is
dropped; `herdId` is likewise unused by the body but kept. -/
def moveHerdOneDay (E : MoveEnv) (lat lng : ℚ) (_herdId : String)
    (speedKmDay : ℚ) (scenario : DayScenario) : MoveResult :=
  let currentValues := E.getFactorValuesAt lat lng scenario
  let currentIndices := computeFactorIndices currentValues
  let currentCsi := computeCSI currentIndices
  let band := (getMovementLikelihood currentCsi).band
  let kmThisDay := kmForBand E lat lng scenario.day speedKmDay band
  let stepDeg := kmThisDay / 111
  match bestCandidate E lat lng stepDeg scenario with
  | none =>
      { lat := lat, lng := lng,
        reason := getLikelihoodMessage currentCsi "no viable move (bounds)" "—" 0,
        csi := currentCsi, band := band,
        candidate := { lat := lat, lng := lng, csi := currentCsi,
                       cost := getPathCost currentCsi 0 0, indices := currentIndices } }
  | some best =>
      { lat := best.1.lat, lng := best.1.lng,
        reason := getLikelihoodMessage best.1.csi (FACTOR_LABELS (dominantFactor best.1.indices))
          (DIR_NAMES.getD best.2 "") (ratRound kmThisDay),
        csi := best.1.csi, band := (getMovementLikelihood best.1.csi).band,
        candidate := best.1 }

structure HerdSeed where
  id : String
  baseLat : ℚ
  baseLng : ℚ
  speed : ℚ
  size : ℚ
  deriving DecidableEq, Repr

/-- Seed table `HERD_SEEDS`.  The repository carries two revisions of movement.ts; this is
the table at the cited lines (the revision backed by mockFactors). -/
def HERD_SEEDS : List HerdSeed :=
  [ { id := "H1", baseLat := 82/10, baseLng := 275/10, speed := 20, size := 85/100 },
    { id := "H2", baseLat := 68/10, baseLng := 302/10, speed := 18, size := 7/10 },
    { id := "H3", baseLat := 95/10, baseLng := 31, speed := 22, size := 9/10 },
    { id := "H4", baseLat := 52/10, baseLng := 318/10, speed := 16, size := 5/10 },
    { id := "H5", baseLat := 7, baseLng := 25, speed := 19, size := 75/100 },
    { id := "H6", baseLat := 102/10, baseLng := 295/10, speed := 21, size := 8/10 },
    { id := "H7", baseLat := 45/10, baseLng := 28, speed := 15, size := 45/100 },
    { id := "H8", baseLat := 88/10, baseLng := 332/10, speed := 23, size := 95/100 },
    { id := "H9", baseLat := 6, baseLng := 265/10, speed := 17, size := 6/10 },
    { id := "H10", baseLat := 9, baseLng := 27, speed := 20, size := 7/10 },
    { id := "H11", baseLat := 58/10, baseLng := 34, speed := 18, size := 55/100 },
    { id := "H12", baseLat := 75/10, baseLng := 325/10, speed := 22, size := 85/100 } ]

/-- State of the per-herd trail fold. -/
structure TrailState where
  lat : ℚ
  lng : ℚ
  trail : List PosDay
  deriving Repr

/-- State of the per-herd forecast fold. -/
structure ForecastState where
  lat : ℚ
  lng : ℚ
  predicted : List PosDay
  lastReason : String
  lastCsi : ℚ
  lastBand : MovementBand
  deriving Repr

/-- One step of the trail fold: move one day and append to the trail. -/
def trailStep (E : MoveEnv) (hid : String) (speed : ℚ) (scenario : ScenarioParams)
    (st : TrailState) (d : ℤ) : TrailState :=
  let result := moveHerdOneDay E st.lat st.lng hid speed (scenario.withDay d)
  { lat := result.lat, lng := result.lng,
    trail := st.trail ++ [{ lat := result.lat, lng := result.lng, day := d }] }

/-- One step of the forecast fold: move one day, append the prediction and
remember the last reason / CSI / band. -/
def forecastStep (E : MoveEnv) (hid : String) (speed : ℚ) (scenario : ScenarioParams)
    (st : ForecastState) (d : ℤ) : ForecastState :=
  let result := moveHerdOneDay E st.lat st.lng hid speed (scenario.withDay d)
  { lat := result.lat, lng := result.lng,
    predicted := st.predicted ++ [{ lat := result.lat, lng := result.lng, day := d }],
    lastReason := result.reason, lastCsi := result.csi, lastBand := result.band }

/-- One herd of `simulateHerds`: replay `pastDays = min(currentDay, 7)` + 1
history days, then the forward forecast.  (`prevDir` is threaded in the
source but never consumed by `moveHerdOneDay`.) -/
def simulateOneHerd (E : MoveEnv) (currentDay forecastDays : ℕ)
    (scenario : ScenarioParams) (seed : HerdSeed) : SimHerd :=
  let pastDays := min currentDay 7
  let trailEnd := ((List.range (pastDays + 1)).map
      (fun k => (currentDay : ℤ) - (pastDays : ℤ) + (k : ℤ))).foldl
    (trailStep E seed.id seed.speed scenario)
    { lat := seed.baseLat, lng := seed.baseLng, trail := [] }
  let fcEnd := ((List.range forecastDays).map
      (fun k => (currentDay : ℤ) + (k : ℤ) + 1)).foldl
    (forecastStep E seed.id seed.speed scenario)
    { lat := trailEnd.lat, lng := trailEnd.lng, predicted := [],
      lastReason := "", lastCsi := 1/2, lastBand := .moderate }
  { id := seed.id, lat := trailEnd.lat, lng := trailEnd.lng, size := seed.size,
    confidence := 7/10 +
      E.rng (seed.baseLat * 100 + seed.baseLng * 50 + (currentDay : ℚ)) * (25/100),
    speedKmDay := seed.speed, trail := trailEnd.trail, predicted := fcEnd.predicted,
    decisionReason := fcEnd.lastReason, csi := fcEnd.lastCsi,
    movementBand := fcEnd.lastBand }

/-- Full simulation `simulateHerds`. -/
def simulateHerds (E : MoveEnv) (currentDay forecastDays : ℕ)
    (scenario : ScenarioParams) : List SimHerd :=
  HERD_SEEDS.map (simulateOneHerd E currentDay forecastDays scenario)

-- ════════════════════════════════════════════════════════════════════
-- §6  Concrete fixtures for witnesses and counterexamples
-- ════════════════════════════════════════════════════════════════════

/-- A factor-index vector with every entry 1/2. -/
def idxHalf : FactorIndices :=
  { ndvi := 1/2, geospatial := 1/2, rainfall := 1/2, waterBodies := 1/2,
    floodExtent := 1/2, soilMoisture := 1/2, evapotranspiration := 1/2,
    landSurfaceTemp := 1/2 }

/-- The count of fired triggers recorded on an alert (the four binary
conditions; convergence is not part of the count). -/
def alertTriggerCount (t : AlertTriggers) : ℕ :=
  ([t.resourceScarcity, t.nearVillage, t.nearFarmland, t.historicalConflict].filter
    (fun x => x)).length

/-- The priority preorder used by the final comparator, as a proposition:
higher severity first, then soonest day. -/
def alertLeP (a b : Alert) : Prop :=
  riskOrder a.riskLevel < riskOrder b.riskLevel ∨
    (riskOrder a.riskLevel = riskOrder b.riskLevel ∧ a.daysAway ≤ b.daysAway)

/-- Two alerts concern the same unordered herd-id pair. -/
def samePair (x y : Alert) : Prop :=
  x.herdIds = y.herdIds ∨ x.herdIds = (y.herdIds.2, y.herdIds.1)

/-- The rationale string contains the substring "no viable move". -/
def mentionsNoViableMove (r : String) : Prop :=
  ∃ s t : String, r = s ++ ("no viable move" ++ t)

/-- The step size (in degrees) `moveHerdOneDay` derives for a given state. -/
def stepDegFor (E : MoveEnv) (lat lng : ℚ) (speedKmDay : ℚ) (scn : DayScenario) : ℚ :=
  kmForBand E lat lng scn.day speedKmDay
    (getMovementLikelihood (computeCSI (computeFactorIndices
      (E.getFactorValuesAt lat lng scn)))).band / 111

/-- The literal `duk` county rule. -/
def dukRule : CountyRule :=
  { county := .duk,
    bbox := { south := 66/10, north := 74/10, west := 31, east := 317/10 },
    multipliers := { convergence := 95/100, village := 1, farm := 1,
                     scarcity := 95/100, history := 9/10 } }

/-- The literal `ayod` county rule. -/
def ayodRule : CountyRule :=
  { county := .ayod,
    bbox := { south := 73/10, north := 82/10, west := 311/10, east := 322/10 },
    multipliers := { convergence := 1, village := 95/100, farm := 9/10,
                     scarcity := 9/10, history := 9/10 } }

/-- A degenerate risk environment: all herds and points of interest collapse
onto one spot (all lookups return 0, no event-backed conflict data). -/
def E0 : RiskEnv :=
  { dist := fun _ _ _ _ => 0, veg := fun _ _ _ => 0, waterScore := fun _ _ _ => 0,
    villageDistKm := fun _ _ => 0, acled := fun _ _ => none,
    conflictHistory := fun _ _ => 0 }

def scnP0 : ScenarioParams :=
  { rainfallAnomaly := 0, droughtSeverity := 0, floodExtent := 0, seasonalShift := 0 }

def herdA : SimHerd :=
  { id := "A", lat := 0, lng := 0, size := 1, confidence := 1, speedKmDay := 20,
    trail := [], predicted := [{ lat := 0, lng := 0, day := 1 }],
    decisionReason := "", csi := 1/2, movementBand := .moderate }

def herdB : SimHerd :=
  { id := "B", lat := 0, lng := 0, size := 1, confidence := 1, speedKmDay := 20,
    trail := [], predicted := [{ lat := 0, lng := 0, day := 1 }],
    decisionReason := "", csi := 1/2, movementBand := .moderate }

/-- The single alert `detectRisks E0 [herdA, herdB] 0 scnP0` produces: midpoint
(0,0) resolves to county `other`, day 1 to the dry season; resource scarcity,
village and farm proximity fire (3 triggers), history does not; distance 0
classifies as high. -/
def alert0 : Alert :=
  { herdIds := ("A", "B"), lat := 0, lng := 0, daysAway := 1, riskLevel := .high,
    riskCategory := .community_protection,
    triggers := { herdConvergence := true, resourceScarcity := true, nearVillage := true,
                  nearFarmland := true, historicalConflict := false,
                  acledBackedConflict := false },
    county := .other, season := .dry }

/-- The future positions the fixture herds produce for forecast day 1. -/
def fpA : FuturePos := { id := "A", lat := 0, lng := 0 }

def fpB : FuturePos := { id := "B", lat := 0, lng := 0 }

/-- A risk environment whose herds are always 100 km apart. -/
def E1 : RiskEnv :=
  { dist := fun _ _ _ _ => 100, veg := fun _ _ _ => 0, waterScore := fun _ _ _ => 0,
    villageDistKm := fun _ _ => 0, acled := fun _ _ => none,
    conflictHistory := fun _ _ => 0 }

/-- All-zero raw factor measurements. -/
def fv0 : FactorValues :=
  { rainfallMmDay := 0, ndvi := 0, soilMoisturePct := 0, waterExtentPct := 0,
    evapotranspirationMmDay := 0, landSurfaceTempC := 0, floodExtentPct := 0,
    distToWaterKm := 0, elevationAboveLocalM := 0, conflictIncidentsPerMonth := 0 }

/-- A movement environment with constant measurements and a constant
(in-range) pseudo-random stream. -/
def M0 : MoveEnv :=
  { getFactorValuesAt := fun _ _ _ => fv0, rng := fun _ => 1/2 }

/-- Invariant of the deduplication fold over a processed prefix `l` of the
alert list: keys are distinct, each entry is keyed by its alert's pair key,
comes from `l`, is priority-minimal among the candidates of `l` sharing its
key, and every processed candidate's key is present. -/
structure DedupInv (l : List Alert) (m : List (String × Alert)) : Prop where
  keysDistinct : m.Pairwise (fun p q => p.1 ≠ q.1)
  entryKey : ∀ p ∈ m, pairKey p.2 = p.1
  entryMem : ∀ p ∈ m, p.2 ∈ l
  entryMin : ∀ p ∈ m, ∀ c ∈ l, pairKey c = p.1 → alertLeP p.2 c
  keyCovered : ∀ c ∈ l, ∃ p ∈ m, p.1 = pairKey c

-- ════════════════════════════════════════════════════════════════════
-- §7  Theorems
-- ════════════════════════════════════════════════════════════════════

theorem clamp01_nonneg (q : ℚ) : 0 ≤ clamp01 q := le_max_left 0 _

theorem clamp01_le_one (q : ℚ) : clamp01 q ≤ 1 :=
  max_le (by norm_num) (min_le_left 1 q)

theorem clamp01_mono {a b : ℚ} (h : a ≤ b) : clamp01 a ≤ clamp01 b :=
  max_le_max le_rfl (min_le_min le_rfl h)

/-- Closed form of `computeCSI`: the total weight is 6.6. -/
theorem computeCSI_eq (idx : FactorIndices) :
    computeCSI idx =
      clamp01 ((idx.ndvi * 1 + idx.geospatial * (9/10) + idx.rainfall * (9/10) +
        idx.waterBodies * (9/10) + idx.floodExtent * (8/10) + idx.soilMoisture * (8/10) +
        idx.evapotranspiration * (7/10) + idx.landSurfaceTemp * (6/10)) / (66/10)) := by
  simp only [computeCSI, FACTOR_ORDER, List.foldl, FACTOR_WEIGHTS, FACTOR_RANKS,
    FactorIndices.get]
  norm_num

/-- C5: every one of the eight factor index functions maps any numeric input
into [0,1], and the composite suitability index computed from any
`FactorIndices` whose entries are in [0,1] lies in [0,1]. -/
theorem factor_indices_and_csi_in_unit_interval :
    (∀ x : ℚ, 0 ≤ indexRainfall x ∧ indexRainfall x ≤ 1) ∧
    (∀ x : ℚ, 0 ≤ indexNDVI x ∧ indexNDVI x ≤ 1) ∧
    (∀ x : ℚ, 0 ≤ indexSoilMoisture x ∧ indexSoilMoisture x ≤ 1) ∧
    (∀ x : ℚ, 0 ≤ indexWaterExtent x ∧ indexWaterExtent x ≤ 1) ∧
    (∀ x : ℚ, 0 ≤ indexEvapotranspiration x ∧ indexEvapotranspiration x ≤ 1) ∧
    (∀ x : ℚ, 0 ≤ indexLandSurfaceTemp x ∧ indexLandSurfaceTemp x ≤ 1) ∧
    (∀ x : ℚ, 0 ≤ indexFloodExtent x ∧ indexFloodExtent x ≤ 1) ∧
    (∀ a b c : ℚ, 0 ≤ indexGeospatial a b c ∧ indexGeospatial a b c ≤ 1) ∧
    (∀ idx : FactorIndices, (∀ f, 0 ≤ idx.get f ∧ idx.get f ≤ 1) →
      0 ≤ computeCSI idx ∧ computeCSI idx ≤ 1) := by
  refine ⟨?_, ?_, ?_, ?_, ?_, ?_, ?_, ?_, ?_⟩
  · intro x; unfold indexRainfall; split_ifs <;> norm_num
  · intro x; unfold indexNDVI; split_ifs <;> norm_num
  · intro x; unfold indexSoilMoisture; split_ifs <;> norm_num
  · intro x; unfold indexWaterExtent; split_ifs <;> norm_num
  · intro x; unfold indexEvapotranspiration; split_ifs <;> norm_num
  · intro x; unfold indexLandSurfaceTemp; split_ifs <;> norm_num
  · intro x; unfold indexFloodExtent; split_ifs <;> norm_num
  · intro a b c; unfold indexGeospatial; dsimp only; split_ifs <;> norm_num
  · intro idx _
    unfold computeCSI
    dsimp only
    split_ifs
    · exact ⟨clamp01_nonneg _, clamp01_le_one _⟩
    · norm_num

/-- C5 witness: the unit-interval bound evaluated at the concrete index
vector with every entry 1/2 (which satisfies the hypothesis). -/
theorem factor_indices_and_csi_in_unit_interval_witness :
    (∀ f, 0 ≤ idxHalf.get f ∧ idxHalf.get f ≤ 1) ∧
    (0 ≤ computeCSI idxHalf ∧ computeCSI idxHalf ≤ 1) :=
  ⟨by intro f; cases f <;> norm_num [idxHalf, FactorIndices.get],
   factor_indices_and_csi_in_unit_interval.2.2.2.2.2.2.2.2 idxHalf
     (by intro f; cases f <;> norm_num [idxHalf, FactorIndices.get])⟩

/-- C9: `computeCSI` is monotonically non-decreasing in each individual
factor index: raising one factor index (within [0,1], all seven others held
fixed) never decreases the CSI. -/
theorem computeCSI_monotone_in_each_factor (idx : FactorIndices) (f : Factor)
    (y : ℚ) (hin : ∀ g, 0 ≤ idx.get g ∧ idx.get g ≤ 1)
    (hy0 : 0 ≤ y) (hy1 : y ≤ 1) (hxy : idx.get f ≤ y) :
    computeCSI idx ≤ computeCSI (idx.set f y) := by
  rw [computeCSI_eq, computeCSI_eq]
  apply clamp01_mono
  apply div_le_div_of_nonneg_right ?_ (by norm_num)
  cases f <;>
    simp only [FactorIndices.set, FactorIndices.get] at hxy ⊢ <;>
    linarith

/-- C9 witness: raising the NDVI index of the all-1/2 vector to 3/5 does not
decrease the CSI. -/
theorem computeCSI_monotone_in_each_factor_witness :
    (∀ g, 0 ≤ idxHalf.get g ∧ idxHalf.get g ≤ 1) ∧
    (0:ℚ) ≤ 3/5 ∧ (3/5:ℚ) ≤ 1 ∧ idxHalf.get .ndvi ≤ 3/5 ∧
    computeCSI idxHalf ≤ computeCSI (idxHalf.set .ndvi (3/5)) :=
  ⟨by intro g; cases g <;> norm_num [idxHalf, FactorIndices.get],
   by norm_num, by norm_num, by norm_num [idxHalf, FactorIndices.get],
   computeCSI_monotone_in_each_factor idxHalf .ndvi (3/5)
     (by intro g; cases g <;> norm_num [idxHalf, FactorIndices.get])
     (by norm_num) (by norm_num) (by norm_num [idxHalf, FactorIndices.get])⟩

/-- C7 counterexample: the point (7.35, 31.4) lies in both the `duk` and the
`ayod` bounding boxes, which are distinct rules of `COUNTY_RULES` — the named
regional boxes are not pairwise non-overlapping. -/
theorem county_bboxes_overlap_counterexample :
    dukRule ∈ COUNTY_RULES ∧ ayodRule ∈ COUNTY_RULES ∧ dukRule ≠ ayodRule ∧
    inCountyBBox dukRule (147/20) (157/5) ∧ inCountyBBox ayodRule (147/20) (157/5) := by
  refine ⟨?_, ?_, ?_, ?_, ?_⟩
  · simp [COUNTY_RULES, dukRule]
  · simp [COUNTY_RULES, ayodRule]
  · simp [dukRule, ayodRule]
  · norm_num [inCountyBBox, dukRule]
  · norm_num [inCountyBBox, ayodRule]

/-- C7 (amended): the region lookup falls back to `other` exactly when no
rule's box contains the coordinate, and otherwise returns the county of a
containing rule — the first in declaration order, so classification does
depend on the table order where boxes overlap (at (7.35, 31.4), contained in
both `duk` and `ayod`, it returns `duk`). -/
theorem countyFromPoint_first_match_fallback :
    (∀ lat lng : ℚ, countyFromPoint lat lng = .other ↔
      ∀ r ∈ COUNTY_RULES, ¬ inCountyBBox r lat lng) ∧
    (∀ lat lng : ℚ, ∀ r ∈ COUNTY_RULES, inCountyBBox r lat lng →
      ∃ q ∈ COUNTY_RULES, inCountyBBox q lat lng ∧ countyFromPoint lat lng = q.county) ∧
    countyFromPoint (147/20) (157/5) = .duk := by
  refine ⟨?_, ?_, ?_⟩
  · intro lat lng
    unfold countyFromPoint
    rcases h : COUNTY_RULES.find? (fun r => decide (inCountyBBox r lat lng)) with _ | r
    · simp only [List.find?_eq_none, decide_eq_true_eq] at h
      simpa using h
    · have hmem := List.mem_of_find?_eq_some h
      have hin := List.find?_some h
      rw [decide_eq_true_eq] at hin
      simp only []
      constructor
      · intro hco
        exfalso
        fin_cases hmem <;> simp_all
      · intro hall
        exact absurd hin (hall r hmem)
  · intro lat lng r hr hin
    rcases h : COUNTY_RULES.find? (fun q => decide (inCountyBBox q lat lng)) with _ | q
    · exfalso
      rw [List.find?_eq_none] at h
      exact h r hr (by simpa using hin)
    · have hqmem := List.mem_of_find?_eq_some h
      have hq := List.find?_some h
      rw [decide_eq_true_eq] at hq
      exact ⟨q, hqmem, hq, by unfold countyFromPoint; rw [h]⟩
  · unfold countyFromPoint
    norm_num [COUNTY_RULES, List.find?, inCountyBBox]

/-- C7 witness: the containment branch of the amended lookup characterization,
applied at (7.35, 31.4) with the `duk` rule. -/
theorem countyFromPoint_first_match_fallback_witness :
    dukRule ∈ COUNTY_RULES ∧ inCountyBBox dukRule (147/20) (157/5) ∧
    ∃ q ∈ COUNTY_RULES, inCountyBBox q (147/20) (157/5) ∧
      countyFromPoint (147/20) (157/5) = q.county :=
  ⟨by simp [COUNTY_RULES, dukRule], by norm_num [inCountyBBox, dukRule],
   countyFromPoint_first_match_fallback.2.1 (147/20) (157/5) dukRule
     (by simp [COUNTY_RULES, dukRule]) (by norm_num [inCountyBBox, dukRule])⟩

-- ── The alert priority preorder ─────────────────────────────

theorem riskOrder_inj : ∀ x y : RiskLevel, riskOrder x = riskOrder y → x = y := by
  intro x y
  cases x <;> cases y <;> simp [riskOrder]

theorem alertLeP_refl (a : Alert) : alertLeP a a := Or.inr ⟨rfl, le_rfl⟩

theorem alertLeP_trans {a b c : Alert} (h1 : alertLeP a b) (h2 : alertLeP b c) :
    alertLeP a c := by
  unfold alertLeP at h1 h2 ⊢
  rcases h1 with h1 | ⟨e1, d1⟩ <;> rcases h2 with h2 | ⟨e2, d2⟩
  · exact Or.inl (h1.trans h2)
  · exact Or.inl (lt_of_lt_of_le h1 e2.le)
  · exact Or.inl (lt_of_le_of_lt e1.le h2)
  · exact Or.inr ⟨e1.trans e2, d1.trans d2⟩

theorem alertLeP_total (a b : Alert) : alertLeP a b ∨ alertLeP b a := by
  unfold alertLeP
  rcases lt_trichotomy (riskOrder a.riskLevel) (riskOrder b.riskLevel) with h | h | h
  · exact Or.inl (Or.inl h)
  · rcases Nat.le_total a.daysAway b.daysAway with hd | hd
    · exact Or.inl (Or.inr ⟨h, hd⟩)
    · exact Or.inr (Or.inr ⟨h.symm, hd⟩)
  · exact Or.inr (Or.inl h)

theorem alertLe_iff {a b : Alert} : alertLe a b = true ↔ alertLeP a b := by
  simp [alertLe, alertLeP]

theorem preferred_false_le {a e : Alert} (h : preferred a e = false) : alertLeP e a := by
  simp only [preferred, decide_eq_false_iff_not] at h
  push_neg at h
  obtain ⟨h1, h2⟩ := h
  unfold alertLeP
  rcases Nat.lt_or_ge (riskOrder e.riskLevel) (riskOrder a.riskLevel) with hlt | hge
  · exact Or.inl hlt
  · have heq : riskOrder e.riskLevel = riskOrder a.riskLevel := le_antisymm h1 hge
    have hlv : a.riskLevel = e.riskLevel := riskOrder_inj _ _ heq.symm
    exact Or.inr ⟨heq, h2 hlv⟩

theorem preferred_true_lt {a e : Alert} (h : preferred a e = true) :
    ∀ {c : Alert}, alertLeP e c → alertLeP a c := by
  simp only [preferred, decide_eq_true_eq] at h
  intro c hec
  unfold alertLeP at hec ⊢
  rcases h with h | ⟨hlv, hd⟩
  · rcases hec with h2 | ⟨h2, _⟩
    · exact Or.inl (h.trans h2)
    · exact Or.inl (lt_of_lt_of_le h h2.le)
  · have hro : riskOrder a.riskLevel = riskOrder e.riskLevel := by rw [hlv]
    rcases hec with h2 | ⟨h2, hd2⟩
    · exact Or.inl (lt_of_le_of_lt hro.le h2)
    · exact Or.inr ⟨hro.trans h2, le_trans (Nat.le_of_lt hd) hd2⟩

theorem samePair_pairKey {x y : Alert} (h : samePair x y) : pairKey x = pairKey y := by
  unfold pairKey
  rcases h with h | h <;> rw [h]
  dsimp only
  by_cases hba : y.herdIds.2 ≤ y.herdIds.1
  · rw [if_pos hba]
    by_cases hab : y.herdIds.1 ≤ y.herdIds.2
    · rw [if_pos hab, le_antisymm hab hba]
    · rw [if_neg hab]
  · have hab : y.herdIds.1 ≤ y.herdIds.2 := le_of_not_le hba
    rw [if_neg hba, if_pos hab]

-- ── The deduplication fold invariant ────────────────────────

theorem dedupStep_inv {l : List Alert} {m : List (String × Alert)}
    (inv : DedupInv l m) (a : Alert) : DedupInv (l ++ [a]) (dedupStep m a) := by
  rcases h : m.find? (fun p => p.1 = pairKey a) with _ | e
  · -- new key: append
    have hstep : dedupStep m a = m ++ [(pairKey a, a)] := by
      unfold dedupStep
      rw [h]
    rw [hstep]
    have hnone : ∀ p ∈ m, p.1 ≠ pairKey a := by
      intro p hp
      have := List.find?_eq_none.mp h p hp
      simpa using this
    constructor
    · rw [List.pairwise_append]
      refine ⟨inv.keysDistinct, List.pairwise_singleton _ _, ?_⟩
      intro p hp q hq
      simp only [List.mem_singleton] at hq
      subst hq
      exact hnone p hp
    · intro p hp
      rcases List.mem_append.mp hp with hp1 | hp1
      · exact inv.entryKey p hp1
      · simp only [List.mem_singleton] at hp1
        rw [hp1]
    · intro p hp
      rcases List.mem_append.mp hp with hp1 | hp1
      · exact List.mem_append_left _ (inv.entryMem p hp1)
      · simp only [List.mem_singleton] at hp1
        rw [hp1]
        simp
    · intro p hp c hc hck
      rcases List.mem_append.mp hp with hp1 | hp1
      · rcases List.mem_append.mp hc with hc1 | hc1
        · exact inv.entryMin p hp1 c hc1 hck
        · simp only [List.mem_singleton] at hc1
          rw [hc1] at hck
          exact absurd hck.symm (hnone p hp1)
      · simp only [List.mem_singleton] at hp1
        rw [hp1] at hck ⊢
        rcases List.mem_append.mp hc with hc1 | hc1
        · obtain ⟨q, hq, hqk⟩ := inv.keyCovered c hc1
          rw [hck] at hqk
          exact absurd hqk (hnone q hq)
        · simp only [List.mem_singleton] at hc1
          rw [hc1]
          exact alertLeP_refl a
    · intro c hc
      rcases List.mem_append.mp hc with hc1 | hc1
      · obtain ⟨p, hp, hpk⟩ := inv.keyCovered c hc1
        exact ⟨p, List.mem_append_left _ hp, hpk⟩
      · simp only [List.mem_singleton] at hc1
        rw [hc1]
        exact ⟨(pairKey a, a), List.mem_append_right _ (by simp), rfl⟩
  · -- existing key
    have hstep : dedupStep m a =
        if preferred a e.2 then
          m.map (fun p => if p.1 = pairKey a then (pairKey a, a) else p)
        else m := by
      unfold dedupStep
      rw [h]
    rw [hstep]
    have he_mem := List.mem_of_find?_eq_some h
    have he_key : e.1 = pairKey a := by simpa using List.find?_some h
    have hkey_unique : ∀ p ∈ m, p.1 = pairKey a → p = e := by
      intro p hp hpk
      by_contra hne
      exact inv.keysDistinct.forall (fun _ _ hne2 => hne2.symm) hp he_mem hne
        (by rw [hpk, he_key])
    have hfst : ∀ p : String × Alert,
        ((fun p => if p.1 = pairKey a then (pairKey a, a) else p) p).1 = p.1 := by
      intro p
      by_cases hpk : p.1 = pairKey a <;> simp [hpk]
    by_cases hp : preferred a e.2 = true
    · rw [if_pos hp]
      constructor
      · rw [List.pairwise_map]
        exact inv.keysDistinct.imp (fun {p q} hpq => by rw [hfst p, hfst q]; exact hpq)
      · intro p hp'
        rcases List.mem_map.mp hp' with ⟨q, hq, hfq⟩
        by_cases hqk : q.1 = pairKey a
        · rw [if_pos hqk] at hfq
          rw [← hfq]
        · rw [if_neg hqk] at hfq
          rw [← hfq]
          exact inv.entryKey q hq
      · intro p hp'
        rcases List.mem_map.mp hp' with ⟨q, hq, hfq⟩
        by_cases hqk : q.1 = pairKey a
        · rw [if_pos hqk] at hfq
          rw [← hfq]
          simp
        · rw [if_neg hqk] at hfq
          rw [← hfq]
          exact List.mem_append_left _ (inv.entryMem q hq)
      · intro p hp' c hc hck
        rcases List.mem_map.mp hp' with ⟨q, hq, hfq⟩
        by_cases hqk : q.1 = pairKey a
        · rw [if_pos hqk] at hfq
          rw [← hfq] at hck ⊢
          rcases List.mem_append.mp hc with hc1 | hc1
          · have hle : alertLeP e.2 c := inv.entryMin e he_mem c hc1 (by rw [hck, he_key])
            exact preferred_true_lt hp hle
          · simp only [List.mem_singleton] at hc1
            rw [hc1]
            exact alertLeP_refl a
        · rw [if_neg hqk] at hfq
          rw [← hfq] at hck ⊢
          rcases List.mem_append.mp hc with hc1 | hc1
          · exact inv.entryMin q hq c hc1 hck
          · simp only [List.mem_singleton] at hc1
            rw [hc1] at hck
            exact absurd hck.symm hqk
      · intro c hc
        rcases List.mem_append.mp hc with hc1 | hc1
        · obtain ⟨p, hp', hpk⟩ := inv.keyCovered c hc1
          refine ⟨(fun p => if p.1 = pairKey a then (pairKey a, a) else p) p,
            List.mem_map_of_mem _ hp', ?_⟩
          rw [hfst p]
          exact hpk
        · simp only [List.mem_singleton] at hc1
          rw [hc1]
          refine ⟨(pairKey a, a), ?_, rfl⟩
          have hmem2 : (fun p => if p.1 = pairKey a then (pairKey a, a) else p) e ∈
              m.map (fun p => if p.1 = pairKey a then (pairKey a, a) else p) :=
            List.mem_map_of_mem _ he_mem
          simpa [he_key] using hmem2
    · rw [if_neg hp]
      have hple : alertLeP e.2 a := preferred_false_le (by simpa using hp)
      constructor
      · exact inv.keysDistinct
      · exact inv.entryKey
      · intro p hp'
        exact List.mem_append_left _ (inv.entryMem p hp')
      · intro p hp' c hc hck
        rcases List.mem_append.mp hc with hc1 | hc1
        · exact inv.entryMin p hp' c hc1 hck
        · simp only [List.mem_singleton] at hc1
          rw [hc1] at hck ⊢
          have hpe : p = e := hkey_unique p hp' hck.symm
          rw [hpe]
          exact hple
      · intro c hc
        rcases List.mem_append.mp hc with hc1 | hc1
        · exact inv.keyCovered c hc1
        · simp only [List.mem_singleton] at hc1
          rw [hc1]
          exact ⟨e, he_mem, he_key⟩

theorem alertLe_trans_bool : ∀ a b c : Alert, alertLe a b → alertLe b c → alertLe a c :=
  fun _ _ _ h1 h2 => alertLe_iff.mpr (alertLeP_trans (alertLe_iff.mp h1) (alertLe_iff.mp h2))

theorem alertLe_total_bool : ∀ a b : Alert, alertLe a b || alertLe b a := by
  intro a b
  rcases alertLeP_total a b with h | h
  · simp [alertLe_iff.mpr h]
  · simp [alertLe_iff.mpr h]

theorem dedupByPair_inv (l : List Alert) : DedupInv l (dedupByPair l) := by
  suffices h : ∀ (rest processed : List Alert) (m : List (String × Alert)),
      DedupInv processed m → DedupInv (processed ++ rest) (rest.foldl dedupStep m) by
    have h0 : DedupInv [] ([] : List (String × Alert)) := by
      constructor <;> simp
    simpa [dedupByPair] using h l [] [] h0
  intro rest
  induction rest with
  | nil =>
    intro processed m inv
    simpa using inv
  | cons a rest ih =>
    intro processed m inv
    have := ih (processed ++ [a]) (dedupStep m a) (dedupStep_inv inv a)
    simpa [List.append_assoc] using this

/-- C1: the alert list returned by `detectRisks` contains at most one alert
per unordered herd-id pair, is capped at 6, is sorted by (severity, days-away)
ascending, and every surviving alert is the priority-maximal (highest
severity, then soonest day) candidate for its pair among all generated
candidates. -/
theorem detectRisks_dedup_cap_sorted (E : RiskEnv) (herds : List SimHerd)
    (baseDay : ℤ) (scenario : ScenarioParams) :
    (detectRisks E herds baseDay scenario).length ≤ 6 ∧
    (detectRisks E herds baseDay scenario).Pairwise (fun x y => ¬ samePair x y) ∧
    (detectRisks E herds baseDay scenario).Pairwise alertLeP ∧
    ∀ x ∈ detectRisks E herds baseDay scenario,
      x ∈ rawAlerts E herds baseDay scenario ∧
      ∀ c ∈ rawAlerts E herds baseDay scenario, samePair x c → alertLeP x c := by
  have inv := dedupByPair_inv (rawAlerts E herds baseDay scenario)
  have hvals_dist : ((dedupByPair (rawAlerts E herds baseDay scenario)).map
      (fun p => p.2)).Pairwise (fun x y => pairKey x ≠ pairKey y) := by
    rw [List.pairwise_map]
    refine List.Pairwise.imp_of_mem ?_ inv.keysDistinct
    intro p q hpm hqm hne
    rw [inv.entryKey p hpm, inv.entryKey q hqm]
    exact hne
  have hperm := List.mergeSort_perm
    ((dedupByPair (rawAlerts E herds baseDay scenario)).map (fun p => p.2)) alertLe
  have hsorted_dist := (hperm.pairwise_iff (fun h => Ne.symm h)).mpr hvals_dist
  refine ⟨?_, ?_, ?_, ?_⟩
  · unfold detectRisks
    simpa using List.length_take_le 6 _
  · unfold detectRisks
    refine (List.Pairwise.sublist (List.take_sublist 6 _) hsorted_dist).imp ?_
    intro x y hne hsp
    exact hne (samePair_pairKey hsp)
  · unfold detectRisks
    have hs := List.sorted_mergeSort alertLe_trans_bool alertLe_total_bool
      ((dedupByPair (rawAlerts E herds baseDay scenario)).map (fun p => p.2))
    exact (List.Pairwise.sublist (List.take_sublist 6 _) hs).imp (fun h => alertLe_iff.mp h)
  · intro x hx
    unfold detectRisks at hx
    have hx2 : x ∈ (dedupByPair (rawAlerts E herds baseDay scenario)).map (fun p => p.2) :=
      List.mem_mergeSort.mp (List.mem_of_mem_take hx)
    obtain ⟨p, hpm, hpx⟩ := List.mem_map.mp hx2
    constructor
    · rw [← hpx]
      exact inv.entryMem p hpm
    · intro c hcraw hsp
      have hkey : pairKey c = p.1 := by
        rw [← inv.entryKey p hpm, hpx]
        exact (samePair_pairKey hsp).symm
      rw [← hpx]
      exact inv.entryMin p hpm c hcraw hkey

-- ── Inversion of the per-pair alert emission ────────────────

/-- Everything the emission of an alert by the per-pair body implies: the
convergence gate passed, the record fields are the midpoint trigger
evaluations, at least two triggers fired, and severity and category follow
the classification rules. -/
theorem riskPairAlert_inv {E : RiskEnv} {dayOffset : ℕ} {scn : DayScenario}
    {a b : FuturePos} {alert : Alert}
    (h : riskPairAlert E dayOffset scn a b = some alert) :
    E.dist a.lat a.lng b.lat b.lng <
      (getRiskThresholdProfile ((a.lat + b.lat) / 2) ((a.lng + b.lng) / 2)
        scn).convergenceKm ∧
    alert.daysAway = dayOffset ∧
    alert.herdIds = (a.id, b.id) ∧
    alert.triggers.resourceScarcity =
      decide (E.veg ((a.lat + b.lat) / 2) ((a.lng + b.lng) / 2) scn <
          (getRiskThresholdProfile ((a.lat + b.lat) / 2) ((a.lng + b.lng) / 2)
            scn).resourceScarcityThreshold ∨
        E.waterScore ((a.lat + b.lat) / 2) ((a.lng + b.lng) / 2) scn <
          (getRiskThresholdProfile ((a.lat + b.lat) / 2) ((a.lng + b.lng) / 2)
            scn).resourceScarcityThreshold) ∧
    alert.triggers.nearVillage =
      decide (E.villageDistKm ((a.lat + b.lat) / 2) ((a.lng + b.lng) / 2) <
        (getRiskThresholdProfile ((a.lat + b.lat) / 2) ((a.lng + b.lng) / 2)
          scn).villageProximityKm) ∧
    alert.triggers.nearFarmland =
      decide (distToFarm E.dist ((a.lat + b.lat) / 2) ((a.lng + b.lng) / 2) <
        (getRiskThresholdProfile ((a.lat + b.lat) / 2) ((a.lng + b.lng) / 2)
          scn).farmProximityKm) ∧
    alert.triggers.historicalConflict =
      decide ((E.acled ((a.lat + b.lat) / 2) ((a.lng + b.lng) / 2)).getD
          (E.conflictHistory ((a.lat + b.lat) / 2) ((a.lng + b.lng) / 2)) >
        (getRiskThresholdProfile ((a.lat + b.lat) / 2) ((a.lng + b.lng) / 2)
          scn).historyThreshold) ∧
    2 ≤ alertTriggerCount alert.triggers ∧
    alert.riskLevel = classifyRisk (E.dist a.lat a.lng b.lat b.lng)
      (getRiskThresholdProfile ((a.lat + b.lat) / 2) ((a.lng + b.lng) / 2)
        scn).convergenceKm (alertTriggerCount alert.triggers) ∧
    alert.riskCategory = categorize alert.triggers.nearVillage
      alert.triggers.nearFarmland alert.triggers.historicalConflict := by
  unfold riskPairAlert at h
  dsimp only at h
  split_ifs at h with h1 h2
  injection h with h
  subst h
  refine ⟨not_le.mp h1, rfl, rfl, rfl, rfl, rfl, rfl, Nat.le_of_not_lt h2, rfl, rfl⟩

/-- Pairs further apart than the resolved convergence threshold never emit. -/
theorem riskPairAlert_none_of_far {E : RiskEnv} {dayOffset : ℕ} {scn : DayScenario}
    {a b : FuturePos}
    (h : (getRiskThresholdProfile ((a.lat + b.lat) / 2) ((a.lng + b.lng) / 2)
        scn).convergenceKm ≤ E.dist a.lat a.lng b.lat b.lng) :
    riskPairAlert E dayOffset scn a b = none := by
  unfold riskPairAlert
  dsimp only
  rw [if_pos h]

/-- Provenance: a raw alert comes from some forecast day and some ordered
herd pair of that day's predicted positions. -/
theorem mem_rawAlerts {E : RiskEnv} {herds : List SimHerd} {baseDay : ℤ}
    {scenario : ScenarioParams} {alert : Alert}
    (h : alert ∈ rawAlerts E herds baseDay scenario) :
    ∃ a b : FuturePos,
      (a, b) ∈ offsetPairs (futurePositions herds alert.daysAway) ∧
      riskPairAlert E alert.daysAway
        (scenario.withDay (baseDay + (alert.daysAway : ℤ))) a b = some alert := by
  unfold rawAlerts at h
  dsimp only at h
  rw [List.mem_flatten] at h
  obtain ⟨L, hL, halert⟩ := h
  rw [List.mem_map] at hL
  obtain ⟨k, _, rfl⟩ := hL
  rw [List.mem_filterMap] at halert
  obtain ⟨p, hp, hsome⟩ := halert
  have hday : alert.daysAway = k + 1 := (riskPairAlert_inv hsome).2.1
  refine ⟨p.1, p.2, ?_, ?_⟩
  · rw [hday]
    exact hp
  · rw [hday]
    exact hsome

/-- Every alert surviving the pipeline is one of the generated candidates. -/
theorem mem_detectRisks_raw {E : RiskEnv} {herds : List SimHerd} {baseDay : ℤ}
    {scenario : ScenarioParams} {x : Alert}
    (hx : x ∈ detectRisks E herds baseDay scenario) :
    x ∈ rawAlerts E herds baseDay scenario := by
  unfold detectRisks at hx
  have hx2 := List.mem_mergeSort.mp (List.mem_of_mem_take hx)
  obtain ⟨p, hpm, hpx⟩ := List.mem_map.mp hx2
  rw [← hpx]
  exact (dedupByPair_inv (rawAlerts E herds baseDay scenario)).entryMem p hpm

/-- C2: an alert for a herd pair and forecast day is emitted only when the
pair's predicted distance is strictly below the convergence threshold of the
profile resolved at the midpoint and at least two of the four binary
triggers fired; a pair at or beyond the resolved threshold never emits. -/
theorem detectRisks_convergence_and_trigger_gate (E : RiskEnv)
    (herds : List SimHerd) (baseDay : ℤ) (scenario : ScenarioParams) :
    (∀ alert ∈ detectRisks E herds baseDay scenario,
      ∃ a b : FuturePos,
        (a, b) ∈ offsetPairs (futurePositions herds alert.daysAway) ∧
        E.dist a.lat a.lng b.lat b.lng <
          (getRiskThresholdProfile ((a.lat + b.lat) / 2) ((a.lng + b.lng) / 2)
            (scenario.withDay (baseDay + (alert.daysAway : ℤ)))).convergenceKm ∧
        2 ≤ alertTriggerCount alert.triggers) ∧
    (∀ (dayOffset : ℕ) (scn : DayScenario) (a b : FuturePos),
      (getRiskThresholdProfile ((a.lat + b.lat) / 2) ((a.lng + b.lng) / 2)
        scn).convergenceKm ≤ E.dist a.lat a.lng b.lat b.lng →
      riskPairAlert E dayOffset scn a b = none) := by
  constructor
  · intro alert halert
    obtain ⟨a, b, hpair, hsome⟩ := mem_rawAlerts (mem_detectRisks_raw halert)
    have hinv := riskPairAlert_inv hsome
    exact ⟨a, b, hpair, hinv.1, hinv.2.2.2.2.2.2.2.1⟩
  · intro dayOffset scn a b h
    exact riskPairAlert_none_of_far h

/-- C10: every alert `detectRisks` emits carries the community-protection
category; resource tension is unreachable, because the two-of-four trigger
gate forces at least one of the settlement / farmland / history triggers. -/
theorem detectRisks_always_community_protection (E : RiskEnv)
    (herds : List SimHerd) (baseDay : ℤ) (scenario : ScenarioParams) :
    ∀ alert ∈ detectRisks E herds baseDay scenario,
      alert.riskCategory = RiskCategory.community_protection := by
  intro alert halert
  obtain ⟨a, b, _, hsome⟩ := mem_rawAlerts (mem_detectRisks_raw halert)
  have hinv := riskPairAlert_inv hsome
  have hcat := hinv.2.2.2.2.2.2.2.2.2
  have htc := hinv.2.2.2.2.2.2.2.1
  rw [hcat]
  unfold categorize
  split
  · rfl
  · rename_i hOr
    exfalso
    simp only [Bool.or_eq_true, not_or, Bool.not_eq_true] at hOr
    obtain ⟨⟨hnv, hnf⟩, hh⟩ := hOr
    unfold alertTriggerCount at htc
    rw [hnv, hnf, hh] at htc
    cases hrs : alert.triggers.resourceScarcity <;> rw [hrs] at htc <;> simp at htc

/-- At zero distance with a positive threshold and at least two fired
triggers, the classification is never low. -/
theorem classifyRisk_zero_ne_low {conv : ℚ} {tc : ℕ} (hconv : 0 < conv)
    (htc : 2 ≤ tc) : classifyRisk 0 conv tc ≠ RiskLevel.low := by
  unfold classifyRisk
  split_ifs with hA hB
  · simp
  · simp
  · exact absurd ⟨by nlinarith, htc⟩ hB

theorem two_le_count_of_first_two (b3 b4 : Bool) :
    2 ≤ (([true, true, b3, b4].filter (fun t => t)).length) := by
  cases b3 <;> cases b4 <;> decide

/-- C3: the severity of every emitted alert follows `classifyRisk` (high iff
distance < 0.3× threshold with ≥3 triggers, else medium iff < 0.5× with ≥2,
else low); and two herds at distance 0 with resource scarcity and settlement
proximity both firing always yield an alert of severity high or medium,
never low, for any positive threshold. -/
theorem detectRisks_severity_classification (E : RiskEnv)
    (herds : List SimHerd) (baseDay : ℤ) (scenario : ScenarioParams) :
    (∀ alert ∈ detectRisks E herds baseDay scenario,
      ∃ a b : FuturePos,
        (a, b) ∈ offsetPairs (futurePositions herds alert.daysAway) ∧
        alert.riskLevel = classifyRisk (E.dist a.lat a.lng b.lat b.lng)
          (getRiskThresholdProfile ((a.lat + b.lat) / 2) ((a.lng + b.lng) / 2)
            (scenario.withDay (baseDay + (alert.daysAway : ℤ)))).convergenceKm
          (alertTriggerCount alert.triggers)) ∧
    (∀ (dayOffset : ℕ) (scn : DayScenario) (a b : FuturePos),
      E.dist a.lat a.lng b.lat b.lng = 0 →
      0 < (getRiskThresholdProfile ((a.lat + b.lat) / 2) ((a.lng + b.lng) / 2)
        scn).convergenceKm →
      (E.veg ((a.lat + b.lat) / 2) ((a.lng + b.lng) / 2) scn <
          (getRiskThresholdProfile ((a.lat + b.lat) / 2) ((a.lng + b.lng) / 2)
            scn).resourceScarcityThreshold ∨
        E.waterScore ((a.lat + b.lat) / 2) ((a.lng + b.lng) / 2) scn <
          (getRiskThresholdProfile ((a.lat + b.lat) / 2) ((a.lng + b.lng) / 2)
            scn).resourceScarcityThreshold) →
      E.villageDistKm ((a.lat + b.lat) / 2) ((a.lng + b.lng) / 2) <
        (getRiskThresholdProfile ((a.lat + b.lat) / 2) ((a.lng + b.lng) / 2)
          scn).villageProximityKm →
      ∃ alert : Alert, riskPairAlert E dayOffset scn a b = some alert ∧
        alert.riskLevel ≠ RiskLevel.low) := by
  constructor
  · intro alert halert
    obtain ⟨a, b, hpair, hsome⟩ := mem_rawAlerts (mem_detectRisks_raw halert)
    have hinv := riskPairAlert_inv hsome
    exact ⟨a, b, hpair, hinv.2.2.2.2.2.2.2.2.1⟩
  · intro dayOffset scn a b hdist0 hconv hsc hnv
    have hlt : E.dist a.lat a.lng b.lat b.lng <
        (getRiskThresholdProfile ((a.lat + b.lat) / 2) ((a.lng + b.lng) / 2)
          scn).convergenceKm := by
      rw [hdist0]
      exact hconv
    unfold riskPairAlert
    dsimp only
    rw [if_neg (not_le.mpr hlt), decide_eq_true hsc, decide_eq_true hnv,
      if_neg (Nat.not_lt.mpr (two_le_count_of_first_two _ _))]
    refine ⟨_, rfl, ?_⟩
    dsimp only
    rw [hdist0]
    exact classifyRisk_zero_ne_low hconv (two_le_count_of_first_two _ _)

-- ── Concrete evaluation of the fixture scenario ─────────────

theorem countyFromPoint_origin : countyFromPoint 0 0 = CountyBand.other := by
  have hfind : COUNTY_RULES.find? (fun r => decide (inCountyBBox r 0 0)) = none := by
    rw [List.find?_eq_none]
    intro r hr
    fin_cases hr <;> norm_num [inCountyBBox]
  unfold countyFromPoint
  rw [hfind]

/-- The threshold profile at (0,0) on day 1 (county `other`, dry season). -/
theorem profile0 : getRiskThresholdProfile 0 0 (scnP0.withDay 1) =
    { county := .other, season := .dry, convergenceKm := 147/4,
      villageProximityKm := 33, farmProximityKm := 22,
      resourceScarcityThreshold := 161/400, historyThreshold := 3/10 } := by
  unfold getRiskThresholdProfile
  dsimp only [ScenarioParams.withDay, scnP0]
  rw [countyFromPoint_origin]
  rw [show seasonFromDay 1 = SeasonBand.dry from by decide]
  rw [show multipliersForCounty CountyBand.other =
      { convergence := 1, village := 1, farm := 1, scarcity := 1, history := 1 } from rfl]
  rw [show multipliersForSeason SeasonBand.dry =
      { convergence := 105/100, village := 11/10, farm := 11/10,
        scarcity := 115/100, history := 1 } from rfl]
  simp only [BASE, RiskThresholdProfile.mk.injEq]
  norm_num

theorem distToFarm_E0 : distToFarm E0.dist 0 0 = 0 := by
  norm_num [distToFarm, FARMS, farmPolygon, E0]

theorem riskPair_eval : riskPairAlert E0 1 (scnP0.withDay 1) fpA fpB = some alert0 := by
  unfold riskPairAlert
  have hmid : ((fpA.lat + fpB.lat) / 2 : ℚ) = 0 ∧ ((fpA.lng + fpB.lng) / 2 : ℚ) = 0 := by
    norm_num [fpA, fpB]
  rw [hmid.1, hmid.2]
  dsimp only
  rw [profile0]
  rw [distToFarm_E0]
  dsimp only [E0, fpA, fpB]
  rw [if_neg (by norm_num), decide_eq_true (by norm_num : (0:ℚ) < 161/400 ∨ (0:ℚ) < 161/400),
    decide_eq_true (by norm_num : (0:ℚ) < 33),
    decide_eq_true (by norm_num : (0:ℚ) < 22),
    decide_eq_false (by norm_num : ¬((Option.getD none 0 : ℚ) > 3/10))]
  rw [if_neg (by norm_num)]
  unfold alert0 classifyRisk categorize
  rw [if_pos (by constructor <;> norm_num)]
  rfl

theorem rawAlerts_eval : rawAlerts E0 [herdA, herdB] 0 scnP0 = [alert0] := by
  unfold rawAlerts
  dsimp only
  rw [show herdA.predicted.length = 1 from rfl, show List.range 1 = [0] from rfl]
  dsimp only [List.map]
  norm_num
  rw [show futurePositions [herdA, herdB] 1 = [fpA, fpB] from rfl]
  rw [show offsetPairs [fpA, fpB] = [(fpA, fpB)] from rfl]
  simp [List.filterMap_cons, riskPair_eval]

theorem detect_eval : detectRisks E0 [herdA, herdB] 0 scnP0 = [alert0] := by
  unfold detectRisks
  rw [rawAlerts_eval]
  rw [show dedupByPair [alert0] = [(pairKey alert0, alert0)] from rfl]
  rw [show ([(pairKey alert0, alert0)].map (fun p => p.2)) = [alert0] from rfl]
  rw [List.mergeSort_singleton]
  rfl

/-- C1 witness: the pipeline guarantees evaluated on the two-herd fixture,
whose output is the single alert `alert0`. -/
theorem detectRisks_dedup_cap_sorted_witness :
    (detectRisks E0 [herdA, herdB] 0 scnP0).length ≤ 6 ∧
    alert0 ∈ detectRisks E0 [herdA, herdB] 0 scnP0 ∧
    alert0 ∈ rawAlerts E0 [herdA, herdB] 0 scnP0 ∧
    alertLeP alert0 alert0 :=
  ⟨(detectRisks_dedup_cap_sorted E0 [herdA, herdB] 0 scnP0).1,
   by rw [detect_eval]; exact List.mem_singleton.mpr rfl,
   ((detectRisks_dedup_cap_sorted E0 [herdA, herdB] 0 scnP0).2.2.2 alert0
     (by rw [detect_eval]; exact List.mem_singleton.mpr rfl)).1,
   ((detectRisks_dedup_cap_sorted E0 [herdA, herdB] 0 scnP0).2.2.2 alert0
     (by rw [detect_eval]; exact List.mem_singleton.mpr rfl)).2 alert0
     (by rw [rawAlerts_eval]; exact List.mem_singleton.mpr rfl) (Or.inl rfl)⟩

theorem mid0lat : ((fpA.lat + fpB.lat) / 2 : ℚ) = 0 := by norm_num [fpA, fpB]

theorem mid0lng : ((fpA.lng + fpB.lng) / 2 : ℚ) = 0 := by norm_num [fpA, fpB]

/-- C2 witness: the far-pair branch of the gate applied to an environment
where the herds are 100 km apart, beyond the 36.75 km resolved threshold. -/
theorem detectRisks_convergence_and_trigger_gate_witness :
    (getRiskThresholdProfile ((fpA.lat + fpB.lat) / 2) ((fpA.lng + fpB.lng) / 2)
      (scnP0.withDay 1)).convergenceKm ≤ E1.dist fpA.lat fpA.lng fpB.lat fpB.lng ∧
    riskPairAlert E1 1 (scnP0.withDay 1) fpA fpB = none :=
  ⟨by rw [mid0lat, mid0lng, profile0]; norm_num [E1],
   (detectRisks_convergence_and_trigger_gate E1 [] 0 scnP0).2 1 (scnP0.withDay 1) fpA fpB
     (by rw [mid0lat, mid0lng, profile0]; norm_num [E1])⟩

/-- C3 witness: the zero-distance consequence applied to the collapsed
environment: an alert is emitted and its severity is not low. -/
theorem detectRisks_severity_classification_witness :
    E0.dist fpA.lat fpA.lng fpB.lat fpB.lng = 0 ∧
    0 < (getRiskThresholdProfile ((fpA.lat + fpB.lat) / 2) ((fpA.lng + fpB.lng) / 2)
      (scnP0.withDay 1)).convergenceKm ∧
    (∃ alert : Alert, riskPairAlert E0 1 (scnP0.withDay 1) fpA fpB = some alert ∧
      alert.riskLevel ≠ RiskLevel.low) :=
  ⟨rfl,
   by rw [mid0lat, mid0lng, profile0]; norm_num,
   (detectRisks_severity_classification E0 [] 0 scnP0).2 1 (scnP0.withDay 1) fpA fpB rfl
     (by rw [mid0lat, mid0lng, profile0]; norm_num)
     (Or.inl (by rw [mid0lat, mid0lng, profile0]; norm_num [E0]))
     (by rw [mid0lat, mid0lng, profile0]; norm_num [E0])⟩

/-- C10 witness: the emitted fixture alert indeed carries the
community-protection category. -/
theorem detectRisks_always_community_protection_witness :
    alert0 ∈ detectRisks E0 [herdA, herdB] 0 scnP0 ∧
    alert0.riskCategory = RiskCategory.community_protection :=
  ⟨by rw [detect_eval]; exact List.mem_singleton.mpr rfl,
   detectRisks_always_community_protection E0 [herdA, herdB] 0 scnP0 alert0
     (by rw [detect_eval]; exact List.mem_singleton.mpr rfl)⟩

-- ── Movement Simulator theorems ─────────────────────────────

/-- C6: the simulator is deterministic — its output is a pure function of
(day, forecast horizon, scenario) and of the environment snapshot: two runs
over environments that agree pointwise (in particular, two runs over the
same environment) produce identical trails and forecasts for every herd.
The pseudo-randomness is the `rng` component, a pure function of its
numeric seed. -/
theorem simulateHerds_deterministic (A B : MoveEnv)
    (hf : ∀ (lat lng : ℚ) (scn : DayScenario),
      A.getFactorValuesAt lat lng scn = B.getFactorValuesAt lat lng scn)
    (hr : ∀ s : ℚ, A.rng s = B.rng s)
    (currentDay forecastDays : ℕ) (scenario : ScenarioParams) :
    simulateHerds A currentDay forecastDays scenario =
      simulateHerds B currentDay forecastDays scenario := by
  have hE : A = B := by
    cases A
    cases B
    simp only [MoveEnv.mk.injEq]
    constructor
    · funext lat lng scn
      exact hf lat lng scn
    · funext s
      exact hr s
  rw [hE]

/-- C6 witness: two identical runs of the constant-environment fixture. -/
theorem simulateHerds_deterministic_witness :
    (∀ (lat lng : ℚ) (scn : DayScenario),
      M0.getFactorValuesAt lat lng scn = M0.getFactorValuesAt lat lng scn) ∧
    (∀ s : ℚ, M0.rng s = M0.rng s) ∧
    simulateHerds M0 3 2 scnP0 = simulateHerds M0 3 2 scnP0 :=
  ⟨fun _ _ _ => rfl, fun _ => rfl,
   simulateHerds_deterministic M0 M0 (fun _ _ _ => rfl) (fun _ => rfl) 3 2 scnP0⟩

/-- A list fold preserves any invariant its step preserves. -/
theorem foldl_preserve {α β : Type} {f : β → α → β} {P : β → Prop}
    (hstep : ∀ b a, P b → P (f b a)) :
    ∀ (l : List α) (b : β), P b → P (l.foldl f b) := by
  intro l
  induction l with
  | nil => intro b hb; exact hb
  | cons a l ih =>
    intro b hb
    exact ih (f b a) (hstep b a hb)

/-- The direction search only ever selects in-bounds candidates. -/
theorem bestCandidate_inBounds {E : MoveEnv} {lat lng stepDeg : ℚ}
    {scn : DayScenario} {c : MovementCandidate} {i : ℕ}
    (h : bestCandidate E lat lng stepDeg scn = some (c, i)) :
    inShrunkBounds c.lat c.lng := by
  unfold bestCandidate at h
  have hinv := foldl_preserve
    (P := fun (o : Option (MovementCandidate × ℕ)) =>
      ∀ c i, o = some (c, i) → inShrunkBounds c.lat c.lng)
    (f := fun acc di =>
      let cj := jitteredCandidate E lat lng stepDeg scn.day di.1 di.2
      if inShrunkBounds cj.1 cj.2 then
        let candidate := evaluateCandidate E cj.1 cj.2 scn
        match acc with
        | none => some (candidate, di.1)
        | some best =>
            if candidate.cost < best.1.cost then some (candidate, di.1) else some best
      else acc)
    ?_ ((directionOffsets stepDeg).enum) none (by intro c i h; cases h)
  · exact hinv c i h
  · intro b a hb c2 i2 heq
    dsimp only at heq
    by_cases hin : inShrunkBounds (jitteredCandidate E lat lng stepDeg scn.day a.1 a.2).1
        (jitteredCandidate E lat lng stepDeg scn.day a.1 a.2).2
    · rw [if_pos hin] at heq
      cases b with
      | none =>
        dsimp only at heq
        injection heq with heq2
        injection heq2 with h1 h2
        rw [← h1]
        exact hin
      | some best =>
        dsimp only at heq
        by_cases hc : (evaluateCandidate E (jitteredCandidate E lat lng stepDeg scn.day a.1 a.2).1
            (jitteredCandidate E lat lng stepDeg scn.day a.1 a.2).2 scn).cost < best.1.cost
        · rw [if_pos hc] at heq
          injection heq with heq2
          injection heq2 with h1 h2
          rw [← h1]
          exact hin
        · rw [if_neg hc] at heq
          injection heq with heq2
          have hbb := hb best.1 best.2 rfl
          rw [heq2] at hbb
          exact hbb
    · rw [if_neg hin] at heq
      exact hb c2 i2 heq

/-- One day of movement either keeps the herd in place (the "no viable move"
fallback) or lands on an in-bounds candidate. -/
theorem moveHerdOneDay_stay_or_inbounds (E : MoveEnv) (lat lng : ℚ)
    (hid : String) (speed : ℚ) (scn : DayScenario) :
    ((moveHerdOneDay E lat lng hid speed scn).lat = lat ∧
     (moveHerdOneDay E lat lng hid speed scn).lng = lng) ∨
    inShrunkBounds (moveHerdOneDay E lat lng hid speed scn).lat
      (moveHerdOneDay E lat lng hid speed scn).lng := by
  unfold moveHerdOneDay
  dsimp only
  rcases hbc : bestCandidate E lat lng
      (kmForBand E lat lng scn.day speed
        (getMovementLikelihood (computeCSI (computeFactorIndices
          (E.getFactorValuesAt lat lng scn)))).band / 111) scn with _ | ⟨c, i⟩
  · exact Or.inl ⟨rfl, rfl⟩
  · exact Or.inr (bestCandidate_inBounds hbc)

/-- The trail fold keeps the position and every recorded trail point inside
the margin-shrunk box, provided it starts there. -/
theorem trailStep_fold_inv (E : MoveEnv) (hid : String) (speed : ℚ)
    (scenario : ScenarioParams) (days : List ℤ) (st : TrailState)
    (hpos : inShrunkBounds st.lat st.lng)
    (htrail : ∀ p ∈ st.trail, inShrunkBounds p.lat p.lng) :
    inShrunkBounds (days.foldl (trailStep E hid speed scenario) st).lat
      (days.foldl (trailStep E hid speed scenario) st).lng ∧
    ∀ p ∈ (days.foldl (trailStep E hid speed scenario) st).trail,
      inShrunkBounds p.lat p.lng := by
  induction days generalizing st with
  | nil => exact ⟨hpos, htrail⟩
  | cons d ds ih =>
    have hnext : inShrunkBounds (trailStep E hid speed scenario st d).lat
        (trailStep E hid speed scenario st d).lng := by
      unfold trailStep
      dsimp only
      rcases moveHerdOneDay_stay_or_inbounds E st.lat st.lng hid speed
          (scenario.withDay d) with ⟨h1, h2⟩ | h
      · rw [h1, h2]
        exact hpos
      · exact h
    refine ih (trailStep E hid speed scenario st d) hnext ?_
    intro p hp
    unfold trailStep at hp
    dsimp only at hp
    rcases List.mem_append.mp hp with hp1 | hp1
    · exact htrail p hp1
    · simp only [List.mem_singleton] at hp1
      rw [hp1]
      exact hnext

/-- Same for the forecast fold. -/
theorem forecastStep_fold_inv (E : MoveEnv) (hid : String) (speed : ℚ)
    (scenario : ScenarioParams) (days : List ℤ) (st : ForecastState)
    (hpos : inShrunkBounds st.lat st.lng)
    (hpred : ∀ p ∈ st.predicted, inShrunkBounds p.lat p.lng) :
    inShrunkBounds (days.foldl (forecastStep E hid speed scenario) st).lat
      (days.foldl (forecastStep E hid speed scenario) st).lng ∧
    ∀ p ∈ (days.foldl (forecastStep E hid speed scenario) st).predicted,
      inShrunkBounds p.lat p.lng := by
  induction days generalizing st with
  | nil => exact ⟨hpos, hpred⟩
  | cons d ds ih =>
    have hnext : inShrunkBounds (forecastStep E hid speed scenario st d).lat
        (forecastStep E hid speed scenario st d).lng := by
      unfold forecastStep
      dsimp only
      rcases moveHerdOneDay_stay_or_inbounds E st.lat st.lng hid speed
          (scenario.withDay d) with ⟨h1, h2⟩ | h
      · rw [h1, h2]
        exact hpos
      · exact h
    refine ih (forecastStep E hid speed scenario st d) hnext ?_
    intro p hp
    unfold forecastStep at hp
    dsimp only at hp
    rcases List.mem_append.mp hp with hp1 | hp1
    · exact hpred p hp1
    · simp only [List.mem_singleton] at hp1
      rw [hp1]
      exact hnext

/-- C4 (amended): the direction search discards out-of-bounds candidates, so
a one-day move either returns an in-bounds position or — when no candidate
is viable — returns the current position unchanged, which may itself lie
outside the box.  Consequently every trail and forecast position stays in
the margin-shrunk bounding box whenever the herd's seed position lies in it
(which the out-of-box entries of `HERD_SEEDS` do not, see the
counterexample); and every simulated herd arises from some seed. -/
theorem movement_bounds_invariant (E : MoveEnv) :
    (∀ (lat lng : ℚ) (hid : String) (speed : ℚ) (scn : DayScenario),
      ((moveHerdOneDay E lat lng hid speed scn).lat = lat ∧
       (moveHerdOneDay E lat lng hid speed scn).lng = lng) ∨
      inShrunkBounds (moveHerdOneDay E lat lng hid speed scn).lat
        (moveHerdOneDay E lat lng hid speed scn).lng) ∧
    (∀ (currentDay forecastDays : ℕ) (scenario : ScenarioParams) (seed : HerdSeed),
      inShrunkBounds seed.baseLat seed.baseLng →
      (∀ p ∈ (simulateOneHerd E currentDay forecastDays scenario seed).trail,
        inShrunkBounds p.lat p.lng) ∧
      (∀ p ∈ (simulateOneHerd E currentDay forecastDays scenario seed).predicted,
        inShrunkBounds p.lat p.lng)) ∧
    (∀ (currentDay forecastDays : ℕ) (scenario : ScenarioParams),
      ∀ herd ∈ simulateHerds E currentDay forecastDays scenario,
        ∃ seed ∈ HERD_SEEDS,
          herd = simulateOneHerd E currentDay forecastDays scenario seed) := by
  refine ⟨moveHerdOneDay_stay_or_inbounds E, ?_, ?_⟩
  · intro currentDay forecastDays scenario seed hseed
    unfold simulateOneHerd
    dsimp only
    have htr := trailStep_fold_inv E seed.id seed.speed scenario
      (((List.range (min currentDay 7 + 1)).map
        (fun k => (currentDay : ℤ) - ((min currentDay 7 : ℕ) : ℤ) + (k : ℤ))))
      { lat := seed.baseLat, lng := seed.baseLng, trail := [] } hseed (by simp)
    refine ⟨htr.2, ?_⟩
    have hfc := forecastStep_fold_inv E seed.id seed.speed scenario
      (((List.range forecastDays).map (fun k => (currentDay : ℤ) + (k : ℤ) + 1)))
      { lat := (((List.range (min currentDay 7 + 1)).map
          (fun k => (currentDay : ℤ) - ((min currentDay 7 : ℕ) : ℤ) + (k : ℤ))).foldl
          (trailStep E seed.id seed.speed scenario)
          { lat := seed.baseLat, lng := seed.baseLng, trail := [] }).lat,
        lng := (((List.range (min currentDay 7 + 1)).map
          (fun k => (currentDay : ℤ) - ((min currentDay 7 : ℕ) : ℤ) + (k : ℤ))).foldl
          (trailStep E seed.id seed.speed scenario)
          { lat := seed.baseLat, lng := seed.baseLng, trail := [] }).lng,
        predicted := [], lastReason := "", lastCsi := 1/2, lastBand := .moderate }
      htr.1 (by simp)
    exact hfc.2
  · intro currentDay forecastDays scenario herd hherd
    unfold simulateHerds at hherd
    obtain ⟨seed, hs, hseed⟩ := List.mem_map.mp hherd
    exact ⟨seed, hs, hseed.symm⟩

/-- C4 witness: the bounds invariant applied to an in-bounds seed. -/
theorem movement_bounds_invariant_witness :
    inShrunkBounds (7 : ℚ) (32 : ℚ) ∧
    (∀ p ∈ (simulateOneHerd M0 3 2 scnP0
        { id := "W", baseLat := 7, baseLng := 32, speed := 20, size := 1/2 }).trail,
      inShrunkBounds p.lat p.lng) :=
  ⟨by norm_num [inShrunkBounds, SOUTH_SUDAN_BBOX],
   ((movement_bounds_invariant M0).2.1 3 2 scnP0
     { id := "W", baseLat := 7, baseLng := 32, speed := 20, size := 1/2 }
     (by norm_num [inShrunkBounds, SOUTH_SUDAN_BBOX])).1⟩

-- ── Concrete movement evaluation at the out-of-box seed ─────

theorem indices_fv0 : computeFactorIndices fv0 =
    { ndvi := 1/10, geospatial := 82/100, rainfall := 2/10, waterBodies := 1/10,
      floodExtent := 1, soilMoisture := 2/10, evapotranspiration := 9/10,
      landSurfaceTemp := 1 } := by
  unfold computeFactorIndices fv0 indexNDVI indexGeospatial indexRainfall
    indexWaterExtent indexFloodExtent indexSoilMoisture indexEvapotranspiration
    indexLandSurfaceTemp
  norm_num

theorem csi_fv0 : computeCSI (computeFactorIndices fv0) = 1649/3300 := by
  rw [indices_fv0, computeCSI_eq]
  norm_num [clamp01]

theorem band_fv0 : (getMovementLikelihood (1649/3300)).band = MovementBand.moderate := by
  unfold getMovementLikelihood
  rw [if_neg (by norm_num), if_pos (by norm_num)]

theorem kmForBand_M0 (lat lng : ℚ) (day : ℤ) :
    kmForBand M0 lat lng day 20 MovementBand.moderate = 35/2 := by
  unfold kmForBand M0
  norm_num

/-- If every jittered candidate is out of bounds, the direction search comes
back empty. -/
theorem bestCandidate_eq_none {E : MoveEnv} {lat lng stepDeg : ℚ} {scn : DayScenario}
    (h : ∀ di ∈ (directionOffsets stepDeg).enum,
      ¬ inShrunkBounds (jitteredCandidate E lat lng stepDeg scn.day di.1 di.2).1
        (jitteredCandidate E lat lng stepDeg scn.day di.1 di.2).2) :
    bestCandidate E lat lng stepDeg scn = none := by
  unfold bestCandidate
  generalize hl : (directionOffsets stepDeg).enum = l
  rw [hl] at h
  clear hl
  induction l with
  | nil => rfl
  | cons di l ih =>
    dsimp only [List.foldl]
    rw [if_neg (h di (List.mem_cons_self di l))]
    exact ih (fun x hx => h x (List.mem_cons_of_mem di hx))

theorem bc_none_H1 :
    bestCandidate M0 (82/10) (275/10) (35/222) (scnP0.withDay 1) = none := by
  apply bestCandidate_eq_none
  intro di hdi
  rw [show (directionOffsets (35/222 : ℚ)).enum =
      [(0, ((35/222 : ℚ), (0 : ℚ))), (1, (35/222, 35/222)), (2, (0, 35/222)),
       (3, (-(35/222), 35/222)), (4, (-(35/222), 0)), (5, (-(35/222), -(35/222))),
       (6, (0, -(35/222))), (7, (35/222, -(35/222)))] from rfl] at hdi
  fin_cases hdi <;>
    norm_num [jitteredCandidate, inShrunkBounds, SOUTH_SUDAN_BBOX, M0, scnP0,
      ScenarioParams.withDay]

/-- C4 counterexample: from the `HERD_SEEDS` entry H1 at (8.2, 27.5) — outside
the margin-shrunk box — every candidate is discarded, and the one-day move
returns the out-of-bounds position (8.2, 27.5) itself. -/
theorem movement_out_of_bounds_counterexample :
    (moveHerdOneDay M0 (82/10) (275/10) "H1" 20 (scnP0.withDay 1)).lat = 82/10 ∧
    (moveHerdOneDay M0 (82/10) (275/10) "H1" 20 (scnP0.withDay 1)).lng = 275/10 ∧
    ¬ inShrunkBounds (moveHerdOneDay M0 (82/10) (275/10) "H1" 20 (scnP0.withDay 1)).lat
      (moveHerdOneDay M0 (82/10) (275/10) "H1" 20 (scnP0.withDay 1)).lng ∧
    ({ id := "H1", baseLat := 82/10, baseLng := 275/10, speed := 20,
       size := 85/100 } : HerdSeed) ∈ HERD_SEEDS := by
  have hmove : (moveHerdOneDay M0 (82/10) (275/10) "H1" 20 (scnP0.withDay 1)).lat = 82/10 ∧
      (moveHerdOneDay M0 (82/10) (275/10) "H1" 20 (scnP0.withDay 1)).lng = 275/10 := by
    unfold moveHerdOneDay
    dsimp only
    rw [show M0.getFactorValuesAt (82/10) (275/10) (scnP0.withDay 1) = fv0 from rfl,
      csi_fv0, band_fv0, kmForBand_M0]
    rw [show ((35/2 : ℚ) / 111) = 35/222 from by norm_num]
    rw [bc_none_H1]
    exact ⟨rfl, rfl⟩
  refine ⟨hmove.1, hmove.2, ?_, ?_⟩
  · rw [hmove.1, hmove.2]
    norm_num [inShrunkBounds, SOUTH_SUDAN_BBOX]
  · unfold HERD_SEEDS
    exact List.mem_cons_self _ _

-- ── C8: the "no viable move" fallback ───────────────────────

/-- The fallback rationale embeds the literal "no viable move". -/
theorem message_mentions (csi : ℚ) (dir : String) (dist : ℤ) :
    mentionsNoViableMove (getLikelihoodMessage csi "no viable move (bounds)" dir dist) := by
  unfold getLikelihoodMessage mentionsNoViableMove
  dsimp only
  refine ⟨toString (ratRound ((getMovementLikelihood csi).likelihoodPct * 100)) ++
      "% likelihood of moving " ++ toString dist ++ " km " ++ dir ++ " due to ",
    " (bounds)" ++ ". CSI=" ++ toFixed2 csi ++ " (" ++
      (getMovementLikelihood csi).band.name ++ " suitability).", ?_⟩
  rw [show ("no viable move (bounds)" : String) = "no viable move" ++ " (bounds)" from rfl]
  simp only [String.append_assoc]

/-- C8: when every one of the eight perturbed direction candidates falls
outside the margin-shrunk bounding box, the one-day move keeps the herd in
place and its rationale contains "no viable move". -/
theorem moveHerd_no_viable_move (E : MoveEnv) (lat lng : ℚ) (hid : String)
    (speed : ℚ) (scn : DayScenario)
    (h : ∀ di ∈ (directionOffsets (stepDegFor E lat lng speed scn)).enum,
      ¬ inShrunkBounds
        (jitteredCandidate E lat lng (stepDegFor E lat lng speed scn) scn.day di.1 di.2).1
        (jitteredCandidate E lat lng (stepDegFor E lat lng speed scn) scn.day di.1 di.2).2) :
    (moveHerdOneDay E lat lng hid speed scn).lat = lat ∧
    (moveHerdOneDay E lat lng hid speed scn).lng = lng ∧
    mentionsNoViableMove (moveHerdOneDay E lat lng hid speed scn).reason := by
  have hbc : bestCandidate E lat lng (stepDegFor E lat lng speed scn) scn = none :=
    bestCandidate_eq_none h
  unfold moveHerdOneDay
  dsimp only
  rw [show (kmForBand E lat lng scn.day speed
      (getMovementLikelihood (computeCSI (computeFactorIndices
        (E.getFactorValuesAt lat lng scn)))).band / 111) =
    stepDegFor E lat lng speed scn from rfl]
  rw [hbc]
  exact ⟨rfl, rfl, message_mentions _ _ _⟩

theorem stepDegFor_M0 (lat lng : ℚ) (scn : DayScenario)
    (h : M0.getFactorValuesAt lat lng scn = fv0) :
    stepDegFor M0 lat lng 20 scn = 35/222 := by
  unfold stepDegFor
  rw [h, csi_fv0, band_fv0, kmForBand_M0]
  norm_num

/-- C8 witness: at (7, 25) — far west of the box — all eight candidates are
out of bounds; the move stays in place and the rationale mentions the
failure. -/
theorem moveHerd_no_viable_move_witness :
    (∀ di ∈ (directionOffsets (stepDegFor M0 7 25 20 (scnP0.withDay 2))).enum,
      ¬ inShrunkBounds
        (jitteredCandidate M0 7 25 (stepDegFor M0 7 25 20 (scnP0.withDay 2))
          (scnP0.withDay 2).day di.1 di.2).1
        (jitteredCandidate M0 7 25 (stepDegFor M0 7 25 20 (scnP0.withDay 2))
          (scnP0.withDay 2).day di.1 di.2).2) ∧
    (moveHerdOneDay M0 7 25 "H5" 20 (scnP0.withDay 2)).lat = 7 ∧
    (moveHerdOneDay M0 7 25 "H5" 20 (scnP0.withDay 2)).lng = 25 ∧
    mentionsNoViableMove (moveHerdOneDay M0 7 25 "H5" 20 (scnP0.withDay 2)).reason := by
  have hstep : stepDegFor M0 7 25 20 (scnP0.withDay 2) = 35/222 :=
    stepDegFor_M0 7 25 (scnP0.withDay 2) rfl
  have hyp : ∀ di ∈ (directionOffsets (stepDegFor M0 7 25 20 (scnP0.withDay 2))).enum,
      ¬ inShrunkBounds
        (jitteredCandidate M0 7 25 (stepDegFor M0 7 25 20 (scnP0.withDay 2))
          (scnP0.withDay 2).day di.1 di.2).1
        (jitteredCandidate M0 7 25 (stepDegFor M0 7 25 20 (scnP0.withDay 2))
          (scnP0.withDay 2).day di.1 di.2).2 := by
    rw [hstep]
    intro di hdi
    rw [show (directionOffsets (35/222 : ℚ)).enum =
        [(0, ((35/222 : ℚ), (0 : ℚ))), (1, (35/222, 35/222)), (2, (0, 35/222)),
         (3, (-(35/222), 35/222)), (4, (-(35/222), 0)), (5, (-(35/222), -(35/222))),
         (6, (0, -(35/222))), (7, (35/222, -(35/222)))] from rfl] at hdi
    fin_cases hdi <;>
      norm_num [jitteredCandidate, inShrunkBounds, SOUTH_SUDAN_BBOX, M0, scnP0,
        ScenarioParams.withDay]
  exact ⟨hyp, moveHerd_no_viable_move M0 7 25 "H5" 20 (scnP0.withDay 2) hyp⟩

